import Mathlib

/-!
Verification development for the KobetsuV1.0 compliance core: a shallow
embedding in Lean 4 of the four rule-evaluation and reconciliation
services of the backend (`contract_validator_service.py`,
`compliance_checker_service.py`, `alert_manager_service.py`,
`sync_resolver_service.py`), together with theorems settling the frozen
claims about them.

Conventions of the embedding:
* Python runtime values that flow through the services' untyped `dict`
  records are modelled by the inductive type `Val`.
* Python `float` and `Decimal` are modelled by rational numbers; all the
  arithmetic these services actually perform on them (small sums,
  differences, products, one division by a power of two) is exact in
  binary floating point, so `ℚ` has the same behaviour on every code
  path that matters here.
* `datetime.date` objects are modelled by their proleptic-Gregorian day
  number (an `Int`); `timedelta` arithmetic and comparisons on dates are
  plain integer arithmetic.
* Code that can raise is embedded in `Except PyErr`; a Python function
  that always returns embeds as a function that always produces `.ok`.
* The SQLAlchemy session is modelled by an explicit `Store` record; a
  mutating run works on a pending copy of the store, `commit` publishes
  it and `rollback` discards it, matching transactional semantics.
* Operational store failures (store unreachable, commit failure) are
  modelled by explicit fault-injection flags, since they originate
  outside the embedded code.
-/

namespace Kobetsu

/-- A Python runtime value as passed through the services' `dict`
records (`None`, `str`, `int`, `float`, `Decimal`, `bool`,
`datetime.date`, `datetime.time`, `list`, `dict`). -/
inductive Val where
  | vNone : Val
  | vStr (s : String) : Val
  | vInt (n : Int) : Val
  | vFloat (q : ℚ) : Val
  | vDec (q : ℚ) : Val
  | vBool (b : Bool) : Val
  | vDate (d : Int) : Val
  | vTime (m : Nat) : Val
  | vList (xs : List Val) : Val
  | vDict (xs : List (String × Val)) : Val

/-- Python truthiness (`bool(v)`): `None`, empty string, numeric zero,
`False` and empty collections are falsy; `date`/`time` objects are
always truthy. -/
def isFalsy : Val → Bool
  | .vNone => true
  | .vStr s => s.data.isEmpty
  | .vInt n => n == 0
  | .vFloat q => q == 0
  | .vDec q => q == 0
  | .vBool b => !b
  | .vDate _ => false
  | .vTime _ => false
  | .vList xs => xs.isEmpty
  | .vDict xs => xs.isEmpty

def isTruthy (v : Val) : Bool := !(isFalsy v)

mutual

/-- Python `==` on runtime values: numeric types compare by value across
`int`/`float`/`Decimal`/`bool`, other types compare structurally, and
values of unrelated types are unequal (never an error). -/
def pyEq : Val → Val → Bool
  | .vNone, .vNone => true
  | .vStr a, .vStr b => a == b
  | .vInt a, .vInt b => a == b
  | .vInt a, .vFloat b => (a : ℚ) == b
  | .vFloat a, .vInt b => a == (b : ℚ)
  | .vFloat a, .vFloat b => a == b
  | .vDec a, .vDec b => a == b
  | .vDec a, .vInt b => a == (b : ℚ)
  | .vInt a, .vDec b => (a : ℚ) == b
  | .vDec a, .vFloat b => a == b
  | .vFloat a, .vDec b => a == b
  | .vBool a, .vBool b => a == b
  | .vBool a, .vInt b => (if a then (1 : Int) else 0) == b
  | .vInt a, .vBool b => a == (if b then (1 : Int) else 0)
  | .vBool a, .vFloat b => (if a then (1 : ℚ) else 0) == b
  | .vFloat a, .vBool b => a == (if b then (1 : ℚ) else 0)
  | .vBool a, .vDec b => (if a then (1 : ℚ) else 0) == b
  | .vDec a, .vBool b => a == (if b then (1 : ℚ) else 0)
  | .vDate a, .vDate b => a == b
  | .vTime a, .vTime b => a == b
  | .vList xs, .vList ys => pyEqList xs ys
  | .vDict xs, .vDict ys => xs.length == ys.length && pyEqDict xs ys
  | _, _ => false

def pyEqList : List Val → List Val → Bool
  | [], [] => true
  | x :: xs, y :: ys => pyEq x y && pyEqList xs ys
  | _, _ => false

def pyEqDict : List (String × Val) → List (String × Val) → Bool
  | [], _ => true
  | (k, v) :: rest, ys =>
      (match ys.find? (fun p => p.1 == k) with
        | some p => pyEq v p.2
        | none => false)
      && pyEqDict rest ys

end

/-- A Python `dict` record with string keys (keys are unique in every
dict the services build). -/
def PyDict := List (String × Val)

/-- `d.get(k)` with default `None`. -/
def dictGet (d : PyDict) (k : String) : Val :=
  match d.find? (fun p => p.1 == k) with
  | some p => p.2
  | none => .vNone

/-- `d.get(k, default)`. -/
def dictGetD (d : PyDict) (k : String) (dflt : Val) : Val :=
  match d.find? (fun p => p.1 == k) with
  | some p => p.2
  | none => dflt

/-- `str(v)` for the scalar values the services stringify; the exact
rendering of floats, dates and collections is irrelevant to every claim
and is approximated. -/
def pyStr : Val → String
  | .vNone => "None"
  | .vStr s => s
  | .vInt n => toString n
  | .vBool b => if b then "True" else "False"
  | .vFloat q => if q.den == 1 then toString q.num ++ ".0" else toString q
  | .vDec q => if q.den == 1 then toString q.num else toString q
  | .vDate d => "date:" ++ toString d
  | .vTime t => "time:" ++ toString t
  | .vList _ => "<list>"
  | .vDict _ => "<dict>"

/-! ### Date handling

`datetime.strptime(s, "%Y-%m-%d").date()`: CPython's `_strptime`
matches `%Y` against exactly four digits and `%m`/`%d` against one or
two digits, then `date(...)` validates the month and the day-of-month;
any mismatch raises `ValueError`.  A parsed date is converted to its
proleptic-Gregorian day number (Rata Die style civil-to-days
conversion), so that `date` subtraction and comparison are integer
subtraction and comparison. -/

/-- Python `str.strip()` whitespace set. -/
def isPyWhitespace (c : Char) : Bool :=
  c == ' ' || c == '\t' || c == '\n' || c == '\r' || c == '\x0b' || c == '\x0c'

/-- `s.strip()`, modelled structurally on the character list. -/
def pyStrip (s : String) : String :=
  String.mk (((s.data.dropWhile isPyWhitespace).reverse.dropWhile
    isPyWhitespace).reverse)

/-- `s.split(sep)` for a one-character separator, modelled structurally
on the character list (the result list is always non-empty). -/
def splitChar (sep : Char) : List Char → List (List Char)
  | [] => [[]]
  | c :: rest =>
      match splitChar sep rest with
      | h :: t => if c == sep then [] :: h :: t else (c :: h) :: t
      | [] => if c == sep then [[], []] else [[c]]

def natOfDigits (l : List Char) : Nat :=
  l.foldl (fun n c => n * 10 + (c.toNat - 48)) 0

def allDigits (l : List Char) : Bool :=
  !l.isEmpty && l.all Char.isDigit

def isLeapYear (y : Nat) : Bool :=
  (y % 4 == 0 && y % 100 != 0) || y % 400 == 0

def daysInMonth (y m : Nat) : Nat :=
  if m == 2 then (if isLeapYear y then 29 else 28)
  else if m == 4 || m == 6 || m == 9 || m == 11 then 30
  else 31

/-- Day number of the civil date `y-m-d` (days since 1970-01-01, can be
negative), for `y ≥ 1`, `1 ≤ m ≤ 12`, `1 ≤ d ≤ daysInMonth y m`. -/
def daysFromCivil (y m d : Nat) : Int :=
  let y' := if m ≤ 2 then y - 1 else y
  let era := y' / 400
  let yoe := y' % 400
  let mp := if m > 2 then m - 3 else m + 9
  let doy := (153 * mp + 2) / 5 + d - 1
  let doe := yoe * 365 + yoe / 4 - yoe / 100 + doy
  (era * 146097 + doe : Int) - 719468

/-- `datetime.strptime(s, "%Y-%m-%d").date()` as a day number, `none`
when it would raise `ValueError`. -/
def parseDate (s : String) : Option Int :=
  match splitChar '-' s.data with
  | [ys, ms, ds] =>
      if ys.length == 4 && allDigits ys
          && allDigits ms && ms.length ≤ 2
          && allDigits ds && ds.length ≤ 2 then
        let y := natOfDigits ys
        let m := natOfDigits ms
        let d := natOfDigits ds
        if 1 ≤ m && m ≤ 12 && 1 ≤ d && d ≤ daysInMonth y m && 1 ≤ y then
          some (daysFromCivil y m d)
        else none
      else none
  | _ => none

/-! ### Numeric string parsing

`float(s)` / `Decimal(s)` on the strings these services can receive:
an optional sign followed by digits with an optional fractional part.
(The exotic accepted spellings -- exponents, `inf`, `nan`, underscores --
never decide any claim and are treated as unparseable.) -/

def parseDigitsQ (l : List Char) : Option ℚ :=
  if allDigits l then some ((natOfDigits l : ℚ)) else none

def parseUnsignedQ (l : List Char) : Option ℚ :=
  match splitChar '.' l with
  | [w] => parseDigitsQ w
  | [w, f] =>
      match parseDigitsQ w, parseDigitsQ f with
      | some wq, some fq => some (wq + fq / ((10 : ℚ) ^ f.length))
      | _, _ => none
  | _ => none

def parseNumQ (s : String) : Option ℚ :=
  match (pyStrip s).data with
  | '-' :: rest => (parseUnsignedQ rest).map Neg.neg
  | '+' :: rest => parseUnsignedQ rest
  | l => parseUnsignedQ l

/-- A raised Python exception, as the services can produce them. -/
inductive PyErr where
  | valueError (msg : String) : PyErr
  | typeError : PyErr
  | invalidOperation : PyErr
  | storeUnreachable : PyErr
  | commitFailed : PyErr
deriving DecidableEq

/-- `str(e)` for a caught exception. -/
def pyErrStr : PyErr → String
  | .valueError m => m
  | .typeError => "TypeError"
  | .invalidOperation => "InvalidOperation"
  | .storeUnreachable => "OperationalError"
  | .commitFailed => "CommitError"

/-- `float(v)`: numeric conversion used by `_validate_overtime_limits`
and `_validate_rates`; raises `ValueError` on an unparseable string and
`TypeError` on a non-numeric, non-string value. -/
def pyFloat : Val → Except PyErr ℚ
  | .vInt n => .ok (n : ℚ)
  | .vFloat q => .ok q
  | .vDec q => .ok q
  | .vBool b => .ok (if b then 1 else 0)
  | .vStr s =>
      match parseNumQ s with
      | some q => .ok q
      | none => .error (.valueError ("could not convert string to float: " ++ s))
  | _ => .error .typeError

/-- `Decimal(str(v))` as used by `_apply_employee_changes`; raises
`InvalidOperation` when the stringified value does not parse as a
decimal number. -/
def decimalOfVal : Val → Except PyErr ℚ
  | .vInt n => .ok (n : ℚ)
  | .vFloat q => .ok q
  | .vDec q => .ok q
  | .vStr s =>
      match parseNumQ s with
      | some q => .ok q
      | none => .error .invalidOperation
  | _ => .error .invalidOperation

/-- Python `<=` between two runtime values as `_validate_dates` uses it
(`end_date <= start_date`): defined within one comparable family,
`TypeError` across families. -/
def pyLe : Val → Val → Except PyErr Bool
  | .vDate a, .vDate b => .ok (a ≤ b)
  | .vInt a, .vInt b => .ok (a ≤ b)
  | .vInt a, .vFloat b => .ok ((a : ℚ) ≤ b)
  | .vFloat a, .vInt b => .ok (a ≤ (b : ℚ))
  | .vFloat a, .vFloat b => .ok (a ≤ b)
  | .vDec a, .vDec b => .ok (a ≤ b)
  | .vDec a, .vInt b => .ok (a ≤ (b : ℚ))
  | .vInt a, .vDec b => .ok ((a : ℚ) ≤ b)
  | .vDec a, .vFloat b => .ok (a ≤ b)
  | .vFloat a, .vDec b => .ok (a ≤ b)
  | .vStr a, .vStr b => .ok (a ≤ b)
  | .vTime a, .vTime b => .ok (a ≤ b)
  | _, _ => .error .typeError

/-- `(end_date - start_date).days`: defined only when both operands are
`date` objects; any other combination raises (`TypeError` at `-`, or
`AttributeError` at `.days`, both modelled as `typeError`). -/
def dateSubDays : Val → Val → Except PyErr Int
  | .vDate a, .vDate b => .ok (a - b)
  | _, _ => .error .typeError

/-! ## Persisted entities and the store

The ORM model classes (`Employee`, `Factory`, `KobetsuKeiyakusho`,
`KobetsuEmployee`) are not part of the four services' source files.
Modelled from the spec: §3 gives the persisted data model
(Contract/Worksite/Worker owned by the external store), and the
structures below carry exactly the columns the four services read and
write.  Fields that the Resolver's apply phase can overwrite with raw
source values are typed `Val`; identifiers and the columns the services
only read through typed queries are given their column types. -/

/-- A stored worker record (`app.models.employee.Employee`). -/
structure Employee where
  id : Int
  employee_number : String
  full_name_kanji : Val := .vNone
  full_name_kana : Val := .vNone
  company_name : Val := .vNone
  department : Val := .vNone
  line_name : Val := .vNone
  hourly_rate : Val := .vNone
  billing_rate : Val := .vNone
  address : Val := .vNone
  visa_expiry_date : Val := .vNone
  status : Val := .vNone
  hire_date : Val := .vNone
  termination_date : Val := .vNone
  visa_type : Val := .vNone
  factory_id : Val := .vNone

/-- A stored worksite record (`app.models.factory.Factory`). -/
structure Factory where
  id : Int
  factory_id : String
  company_name : String := ""
  plant_name : String := ""
  company_address : Val := .vNone
  plant_address : Val := .vNone
  client_responsible_name : Val := .vNone
  client_complaint_name : Val := .vNone
  dispatch_responsible_name : Val := .vNone
  conflict_date : Option Int := none
  is_active : Bool := true

/-- A stored dispatch contract
(`app.models.kobetsu_keiyakusho.KobetsuKeiyakusho`), restricted to the
columns the auditing/alerting services read. -/
structure KobetsuKeiyakusho where
  id : Int
  contract_number : String := ""
  worksite_name : String := ""
  dispatch_start_date : Int
  dispatch_end_date : Int
  status : String := "draft"
  factory_id : Int := 0
  number_of_workers : Int := 0

/-- A contract-to-worker assignment row
(`app.models.kobetsu_keiyakusho.KobetsuEmployee`). -/
structure KobetsuEmployee where
  kobetsu_id : Int
  employee_id : Int

/-- The external system-of-record the services query. -/
structure Store where
  employees : List Employee := []
  factories : List Factory := []
  contracts : List KobetsuKeiyakusho := []
  kobetsu_employees : List KobetsuEmployee := []

/-- `getattr(employee, field, None)` for the column names the Resolver
touches. -/
def Employee.getField (e : Employee) (f : String) : Val :=
  if f == "full_name_kanji" then e.full_name_kanji
  else if f == "full_name_kana" then e.full_name_kana
  else if f == "company_name" then e.company_name
  else if f == "department" then e.department
  else if f == "line_name" then e.line_name
  else if f == "hourly_rate" then e.hourly_rate
  else if f == "billing_rate" then e.billing_rate
  else if f == "address" then e.address
  else if f == "visa_expiry_date" then e.visa_expiry_date
  else if f == "status" then e.status
  else if f == "hire_date" then e.hire_date
  else if f == "termination_date" then e.termination_date
  else if f == "visa_type" then e.visa_type
  else if f == "factory_id" then e.factory_id
  else .vNone

/-- `setattr(employee, field, v)` for the same column names. -/
def Employee.setField (e : Employee) (f : String) (v : Val) : Employee :=
  if f == "full_name_kanji" then { e with full_name_kanji := v }
  else if f == "full_name_kana" then { e with full_name_kana := v }
  else if f == "company_name" then { e with company_name := v }
  else if f == "department" then { e with department := v }
  else if f == "line_name" then { e with line_name := v }
  else if f == "hourly_rate" then { e with hourly_rate := v }
  else if f == "billing_rate" then { e with billing_rate := v }
  else if f == "address" then { e with address := v }
  else if f == "visa_expiry_date" then { e with visa_expiry_date := v }
  else if f == "status" then { e with status := v }
  else if f == "hire_date" then { e with hire_date := v }
  else if f == "termination_date" then { e with termination_date := v }
  else if f == "visa_type" then { e with visa_type := v }
  else if f == "factory_id" then { e with factory_id := v }
  else e

/-! ## Reconciliation Resolver (`sync_resolver_service.py`) -/

inductive ConflictStrategy where
  | source_wins
  | db_wins
  | newest_wins
  | manual
  | merge
deriving DecidableEq

inductive ConflictSeverity where
  | critical
  | high
  | medium
  | low
deriving DecidableEq

/-- A conflict in a single field (`FieldConflict`). -/
structure FieldConflict where
  field_name : String
  japanese_name : String
  source_value : Val
  db_value : Val
  recommended_action : ConflictStrategy
  severity : ConflictSeverity
  reason : String := ""

/-- A conflict for a single record (`SyncConflict`). -/
structure SyncConflict where
  entity_type : String
  entity_key : String
  entity_name : Val
  conflicts : List FieldConflict := []
  source_record : PyDict := []
  db_record_id : Int := 0

/-- Preview entry appended to `analysis.to_create`. -/
structure CreateEntry where
  employee_number : String
  full_name : Val
  company_name : Val

/-- Preview entry appended to `analysis.to_update`. -/
structure UpdateEntry where
  employee_number : String
  has_conflicts : Bool
  conflict_count : Nat

/-- Entry appended to `analysis.db_only`. -/
structure DbOnlyEntry where
  employee_number : String
  full_name : Val
  status : Val

/-- Result of analyzing sync changes before applying (`SyncAnalysis`),
with the `analyzed_at` timestamp out of scope. -/
structure SyncAnalysis where
  source_type : String := "excel"
  entity_type : String := "employee"
  source_count : Nat := 0
  db_count : Nat := 0
  to_create : List CreateEntry := []
  to_update : List UpdateEntry := []
  unchanged : List String := []
  conflicts : List SyncConflict := []
  db_only : List DbOnlyEntry := []

/-- Result of executing a sync operation (`SyncResult`), with the
`executed_at` timestamp out of scope. -/
structure SyncResult where
  success : Bool := false
  created : Nat := 0
  updated : Nat := 0
  skipped : Nat := 0
  conflicts_resolved : Nat := 0
  conflicts_pending : Nat := 0
  errors : List String := []
  warnings : List String := []
  snapshot_id : String := ""

/-- `_normalize_value`: `None` stays `None`; a string is stripped and
the blank-ish spellings `""`, `"0"`, `"nan"`, `"None"` become `None`;
numeric zero becomes `None` — including `False`, since Python's `bool`
is a subclass of `int`, so `isinstance(False, (int, float))` holds and
`False == 0`, while `True` (`== 1`) passes through; a `Decimal` becomes
a `float` (even `Decimal(0)`, which skips the `(int, float)` branch);
everything else passes through. -/
def normalize_value : Val → Val
  | .vNone => .vNone
  | .vStr s =>
      let s := pyStrip s
      if s == "" || s == "0" || s == "nan" || s == "None" then .vNone
      else .vStr s
  | .vInt n => if n == 0 then .vNone else .vInt n
  | .vFloat q => if q == 0 then .vNone else .vFloat q
  | .vBool b => if b then .vBool b else .vNone
  | .vDec q => .vFloat q
  | v => v

/-- The tracked employee fields, each with its Japanese label and its
conflict severity (`compare_fields` in `_compare_employee`). -/
def compare_fields : List (String × String × ConflictSeverity) :=
  [("full_name_kanji", "氏名", .high),
   ("full_name_kana", "カナ", .medium),
   ("company_name", "派遣先", .high),
   ("department", "配属先", .medium),
   ("line_name", "ライン", .medium),
   ("hourly_rate", "時給", .high),
   ("status", "状態", .critical)]

/-- Recommended action for one differing tracked field. -/
def recommendedAction (field_name : String) (severity : ConflictSeverity)
    (source_val : Val) : ConflictStrategy :=
  if severity = .critical then .manual
  else if field_name == "status" && pyEq source_val (.vStr "resigned") then .source_wins
  else if field_name == "hourly_rate" then .source_wins
  else .newest_wins

/-- The conflict condition of `_compare_employee` for one tracked
field: the normalized source value differs from the normalized stored
value and the normalized source value is not `None`. -/
def compareCond (source : PyDict) (db : Employee) (field_name : String) : Bool :=
  let source_val := normalize_value (dictGet source field_name)
  let db_val := normalize_value (db.getField field_name)
  !pyEq source_val db_val && !(source_val matches .vNone)

/-- The `FieldConflict` `_compare_employee` records for one differing
tracked field. -/
def mkFieldConflict (source : PyDict) (db : Employee)
    (entry : String × String × ConflictSeverity) : FieldConflict :=
  let source_val := normalize_value (dictGet source entry.1)
  { field_name := entry.1
    japanese_name := entry.2.1
    source_value := source_val
    db_value := normalize_value (db.getField entry.1)
    recommended_action := recommendedAction entry.1 entry.2.2 source_val
    severity := entry.2.2
    reason := entry.2.1 ++ "がソースとDBで異なります" }

/-- One iteration of `_compare_employee`'s loop. -/
def compareStep (source : PyDict) (db : Employee)
    (entry : String × String × ConflictSeverity) (acc : List FieldConflict) :
    List FieldConflict :=
  if compareCond source db entry.1 then mkFieldConflict source db entry :: acc
  else acc

/-- `_compare_employee`: one comparator per tracked field; a conflict is
recorded when the normalized source value differs from the normalized
stored value and the normalized source value is not `None`. -/
def compare_employee (source : PyDict) (db : Employee) : List FieldConflict :=
  compare_fields.foldr (compareStep source db) []

/-- The keyed lookup of stored employees by natural key, as the Python
dict comprehension builds it: later rows with a duplicate
`employee_number` overwrite the value while the key keeps its first
position. -/
def buildEmpMap (es : List Employee) : List (String × Employee) :=
  es.foldl
    (fun m e =>
      if m.any (fun p => p.1 == e.employee_number) then
        m.map (fun p => if p.1 == e.employee_number then (p.1, e) else p)
      else m ++ [(e.employee_number, e)])
    []

def lookupEmp (m : List (String × Employee)) (k : String) : Option Employee :=
  (m.find? (fun p => p.1 == k)).map (·.2)

/-- The natural key of one source record:
`str(record.get("employee_number", "")).strip()`. -/
def sourceKey (record : PyDict) : String :=
  pyStrip (pyStr (dictGetD record "employee_number" (.vStr "")))

/-- The body of `analyze_employee_sync`'s main loop, one source record
at a time, threading the analysis and the set of seen source keys. -/
def analyzeStep (empMap : List (String × Employee))
    (st : SyncAnalysis × List String) (record : PyDict) :
    SyncAnalysis × List String :=
  let analysis := st.1
  let source_keys := st.2
  let emp_number := sourceKey record
  if emp_number == "" then (analysis, source_keys)
  else
    let source_keys := source_keys ++ [emp_number]
    match lookupEmp empMap emp_number with
    | none =>
        ({ analysis with
            to_create := analysis.to_create ++
              [{ employee_number := emp_number
                 full_name := dictGetD record "full_name_kanji" (.vStr "")
                 company_name := dictGetD record "company_name" (.vStr "") }] },
         source_keys)
    | some db_emp =>
        let conflicts := compare_employee record db_emp
        if !conflicts.isEmpty then
          ({ analysis with
              conflicts := analysis.conflicts ++
                [{ entity_type := "employee"
                   entity_key := emp_number
                   entity_name := db_emp.full_name_kanji
                   conflicts := conflicts
                   source_record := record
                   db_record_id := db_emp.id }]
              to_update := analysis.to_update ++
                [{ employee_number := emp_number
                   has_conflicts := true
                   conflict_count := conflicts.length }] },
           source_keys)
        else
          ({ analysis with unchanged := analysis.unchanged ++ [emp_number] },
           source_keys)

/-- `analyze_employee_sync`: read-only classification of a source batch
against the stored employees. -/
def analyze_employee_sync (store : Store) (source_data : List PyDict)
    (source_type : String := "excel") : SyncAnalysis :=
  let empMap := buildEmpMap store.employees
  let init : SyncAnalysis :=
    { source_type := source_type
      entity_type := "employee"
      source_count := source_data.length
      db_count := empMap.length }
  let st := source_data.foldl (analyzeStep empMap) (init, [])
  let analysis := st.1
  let source_keys := st.2
  { analysis with
      db_only := analysis.db_only ++
        (empMap.filter (fun p => !source_keys.contains p.1)).map
          (fun p =>
            { employee_number := p.1
              full_name := p.2.full_name_kanji
              status := p.2.status }) }

/-- The columns `_apply_employee_changes` copies from the source record. -/
def updatable_fields : List String :=
  ["full_name_kanji", "full_name_kana", "company_name",
   "department", "line_name", "hourly_rate", "billing_rate",
   "address", "visa_expiry_date", "status"]

/-- The special conversions `_apply_employee_changes` performs on one
field value: rates go through `Decimal(str(v))` when truthy, date
columns parse a string value with `strptime("%Y-%m-%d")`; both raise on
malformed input. -/
def convertFieldVal (f : String) (source_val : Val) : Except PyErr Val :=
  if f == "hourly_rate" || f == "billing_rate" then
    if isTruthy source_val then Val.vDec <$> decimalOfVal source_val
    else pure source_val
  else if f == "visa_expiry_date" || f == "hire_date" || f == "termination_date" then
    match source_val with
    | .vStr s =>
        match parseDate s with
        | some d => pure (.vDate d)
        | none => .error (.valueError ("time data " ++ s ++ " does not match format"))
    | v => pure v
  else pure source_val

/-- `_apply_employee_changes`: copies every non-`None` source field to
the employee; the `strategy` parameter is accepted but not consulted by
the body. -/
def apply_employee_changes (employee : Employee) (source : PyDict)
    (strategy : ConflictStrategy) : Except PyErr Employee :=
  updatable_fields.foldlM
    (fun emp f =>
      let source_val := dictGet source f
      if source_val matches .vNone then pure emp
      else do
        let v ← convertFieldVal f source_val
        pure (emp.setField f v))
    employee

/-- `db.query(Employee).filter(Employee.employee_number == k).first()`
against the session's pending state. -/
def queryEmployeeFirst (pending : List Employee) (k : String) : Option Employee :=
  pending.find? (fun e => e.employee_number == k)

/-- Write the mutated ORM object back: replaces the first stored row
whose `employee_number` is `k`. -/
def updateFirstEmployee : List Employee → String → Employee → List Employee
  | [], _, _ => []
  | e :: rest, k, newEmp =>
      if e.employee_number == k then newEmp :: rest
      else e :: updateFirstEmployee rest k newEmp

/-- `manual_decisions.get(emp_number, strategy)`. -/
def resolution_for (manual : List (String × ConflictStrategy))
    (strategy : ConflictStrategy) (k : String) : ConflictStrategy :=
  match manual.find? (fun p => p.1 == k) with
  | some p => p.2
  | none => strategy

/-- `emp_number in manual_decisions`. -/
def manualHas (manual : List (String × ConflictStrategy)) (k : String) : Bool :=
  manual.any (fun p => p.1 == k)

/-- The conflicts loop of `resolve_employee_conflicts`, run against the
session's pending employee state; a raise inside
`_apply_employee_changes` escapes with the counters accumulated so far. -/
def resolveLoop (manual : List (String × ConflictStrategy))
    (strategy : ConflictStrategy) :
    List SyncConflict → List Employee → SyncResult →
    Except (PyErr × SyncResult) (List Employee × SyncResult)
  | [], pending, result => .ok (pending, result)
  | conflict :: rest, pending, result =>
      let emp_number := conflict.entity_key
      let resolution := resolution_for manual strategy emp_number
      if resolution = .db_wins then
        resolveLoop manual strategy rest pending
          { result with skipped := result.skipped + 1 }
      else if resolution = .manual ∧ manualHas manual emp_number = false then
        resolveLoop manual strategy rest pending
          { result with conflicts_pending := result.conflicts_pending + 1 }
      else
        match queryEmployeeFirst pending emp_number with
        | some db_emp =>
            if !conflict.source_record.isEmpty then
              match apply_employee_changes db_emp conflict.source_record resolution with
              | .ok emp' =>
                  resolveLoop manual strategy rest
                    (updateFirstEmployee pending emp_number emp')
                    { result with
                        updated := result.updated + 1
                        conflicts_resolved := result.conflicts_resolved + 1 }
              | .error e => .error (e, result)
            else resolveLoop manual strategy rest pending result
        | none => resolveLoop manual strategy rest pending result

/-- `resolve_employee_conflicts`: snapshots (snapshot id modelled as a
constant, timestamps being out of scope), creates, resolves conflicts
against the pending state, then commits; every raise inside the
`try` block -- including a commit failure, injected here through
`commitFault` -- is caught, the transaction is rolled back, and the
function returns normally with `success = False` and the stringified
exception appended to `errors`. -/
def resolve_employee_conflicts (store : Store) (analysis : SyncAnalysis)
    (strategy : ConflictStrategy := .source_wins)
    (manual_decisions : List (String × ConflictStrategy) := [])
    (commitFault : Bool := false) : Except PyErr (Store × SyncResult) :=
  match resolveLoop manual_decisions strategy analysis.conflicts
      store.employees
      { snapshot_id := "sync_employees"
        created := analysis.to_create.length } with
  | .ok (pending, r) =>
      if commitFault then
        .ok (store, { r with success := false,
                             errors := r.errors ++ [pyErrStr .commitFailed] })
      else
        .ok ({ store with employees := pending }, { r with success := true })
  | .error (e, r) =>
      .ok (store, { r with success := false,
                           errors := r.errors ++ [pyErrStr e] })

/-! ## Record Validator (`contract_validator_service.py`) -/

/-- A single validation problem (`ValidationError`); the rendered
Japanese `message`/`suggestion` display strings are out of scope. -/
structure ValidationError where
  field : String
  code : String
  japanese_name : String := ""
  severity : String := "error"
deriving DecidableEq

/-- Result of contract validation (`ValidationResult`). -/
structure ValidationResult where
  is_valid : Bool := true
  errors : List ValidationError := []
  warnings : List ValidationError := []
  fields_checked : Nat := 0
  fields_valid : Nat := 0
  compliance_score : Int := 100
deriving DecidableEq

def addError (r : ValidationResult) (f c jn : String) : ValidationResult :=
  { r with errors := r.errors ++ [{ field := f, code := c, japanese_name := jn }] }

def addWarning (r : ValidationResult) (f c jn : String) : ValidationResult :=
  { r with warnings := r.warnings ++
      [{ field := f, code := c, japanese_name := jn, severity := "warning" }] }

/-- The 16 required fields of 労働者派遣法第26条
(`REQUIRED_FIELDS`): `(field_name, japanese_name, validation_type,
min_length)`. -/
def REQUIRED_FIELDS : List (String × String × String × Option Nat) :=
  [("work_content", "業務の内容", "text", some 5),
   ("responsibility_level", "責任の程度", "text", some 2),
   ("worksite_name", "派遣先事業所名", "text", some 2),
   ("worksite_address", "事業所住所", "text", some 5),
   ("supervisor_name", "指揮命令者", "text", some 2),
   ("work_days", "就業日", "json_array", some 1),
   ("work_start_time", "始業時刻", "time", none),
   ("work_end_time", "終業時刻", "time", none),
   ("break_time_minutes", "休憩時間", "integer", none),
   ("safety_measures", "安全衛生", "text_optional", some 0),
   ("haken_moto_complaint_contact", "派遣元苦情処理担当", "json_object", none),
   ("haken_saki_complaint_contact", "派遣先苦情処理担当", "json_object", none),
   ("termination_measures", "契約解除の措置", "text_optional", some 0),
   ("haken_moto_manager", "派遣元責任者", "json_object", none),
   ("haken_saki_manager", "派遣先責任者", "json_object", none),
   ("hourly_rate", "派遣料金", "decimal", none)]

/-- One iteration of `_validate_required_fields`'s dispatch loop. -/
def checkRequiredField (data : PyDict) (r : ValidationResult)
    (entry : String × String × String × Option Nat) : ValidationResult :=
  let field_name := entry.1
  let japanese_name := entry.2.1
  let val_type := entry.2.2.1
  let min_length := entry.2.2.2
  let r := { r with fields_checked := r.fields_checked + 1 }
  let value := dictGet data field_name
  if val_type == "text" then
    if isFalsy value || (match value with
        | .vStr s => (pyStrip s).data.isEmpty
        | _ => false) then
      addError r field_name "REQUIRED_FIELD_MISSING" japanese_name
    else if (match min_length with
             | some n => n ≠ 0 && (pyStrip (pyStr value)).length < n
             | none => false) then
      addWarning r field_name "FIELD_TOO_SHORT" japanese_name
    else { r with fields_valid := r.fields_valid + 1 }
  else if val_type == "text_optional" then
    if isFalsy value then
      addWarning r field_name "OPTIONAL_FIELD_MISSING" japanese_name
    else { r with fields_valid := r.fields_valid + 1 }
  else if val_type == "json_array" then
    if isFalsy value || !(value matches .vList _)
        || (match value with
            | .vList xs => xs.length < min_length.getD 0
            | _ => true) then
      addError r field_name "REQUIRED_FIELD_MISSING" japanese_name
    else { r with fields_valid := r.fields_valid + 1 }
  else if val_type == "json_object" then
    if isFalsy value || !(value matches .vDict _) then
      addError r field_name "REQUIRED_FIELD_MISSING" japanese_name
    else if (match value with
             | .vDict xs => isFalsy (dictGet xs "name") && isFalsy (dictGet xs "department")
             | _ => false) then
      addWarning r field_name "INCOMPLETE_CONTACT_INFO" japanese_name
    else { r with fields_valid := r.fields_valid + 1 }
  else if val_type == "time" then
    if value matches .vNone then
      addError r field_name "REQUIRED_FIELD_MISSING" japanese_name
    else { r with fields_valid := r.fields_valid + 1 }
  else if val_type == "integer" then
    if value matches .vNone then
      addError r field_name "REQUIRED_FIELD_MISSING" japanese_name
    else if (match value with
             | .vInt n => decide (n < 0)
             | .vFloat q => decide (q < 0)
             | .vBool _ => false
             | _ => true) then
      addError r field_name "INVALID_VALUE" japanese_name
    else { r with fields_valid := r.fields_valid + 1 }
  else if val_type == "decimal" then
    if value matches .vNone then
      addError r field_name "REQUIRED_FIELD_MISSING" japanese_name
    else if (match value with
             | .vInt n => decide (n ≤ 0)
             | .vFloat q => decide (q ≤ 0)
             | .vDec q => decide (q ≤ 0)
             | .vBool b => !b
             | _ => true) then
      addError r field_name "INVALID_VALUE" japanese_name
    else { r with fields_valid := r.fields_valid + 1 }
  else r

/-- `_validate_required_fields`: the 16-entry dispatch loop; never
raises on any input value. -/
def validate_required_fields (data : PyDict) (r : ValidationResult) : ValidationResult :=
  REQUIRED_FIELDS.foldl (checkRequiredField data) r

/-- The string-to-date conversion `_validate_dates` and
`_validate_factory_consistency` apply to a dispatch date taken from the
input dict: a string is parsed with `strptime("%Y-%m-%d")` (raising
`ValueError` on mismatch), any other value passes through unconverted. -/
def convertDateVal : Val → Except PyErr Val
  | .vStr s =>
      match parseDate s with
      | some d => .ok (.vDate d)
      | none => .error (.valueError ("time data " ++ s ++ " does not match format %Y-%m-%d"))
  | v => .ok v

/-- Python `>` between runtime values, with the same domain as `pyLe`. -/
def pyGt : Val → Val → Except PyErr Bool
  | .vDate a, .vDate b => .ok (a > b)
  | .vInt a, .vInt b => .ok (a > b)
  | .vInt a, .vFloat b => .ok ((a : ℚ) > b)
  | .vFloat a, .vInt b => .ok (a > (b : ℚ))
  | .vFloat a, .vFloat b => .ok (a > b)
  | .vDec a, .vDec b => .ok (a > b)
  | .vDec a, .vInt b => .ok (a > (b : ℚ))
  | .vInt a, .vDec b => .ok ((a : ℚ) > b)
  | .vDec a, .vFloat b => .ok (a > b)
  | .vFloat a, .vDec b => .ok (a > b)
  | .vStr a, .vStr b => .ok (a > b)
  | .vTime a, .vTime b => .ok (a > b)
  | _, _ => .error .typeError

/-- `_validate_dates`: missing dates are structured errors; string
dates are parsed (raising on a malformed string); then range and
duration checks, raising when the values do not support date
comparison/subtraction. -/
def validate_dates (data : PyDict) (r : ValidationResult) : Except PyErr ValidationResult :=
  let start0 := dictGet data "dispatch_start_date"
  if isFalsy start0 then
    .ok (addError r "dispatch_start_date" "REQUIRED_FIELD_MISSING" "派遣開始日")
  else
    let end0 := dictGet data "dispatch_end_date"
    if isFalsy end0 then
      .ok (addError r "dispatch_end_date" "REQUIRED_FIELD_MISSING" "派遣終了日")
    else do
      let start_date ← convertDateVal start0
      let end_date ← convertDateVal end0
      let le ← pyLe end_date start_date
      let r := if le then addError r "dispatch_end_date" "INVALID_DATE_RANGE" "派遣終了日" else r
      let duration_days ← dateSubDays end_date start_date
      if duration_days > 365 * 3 then
        pure (addError r "dispatch_end_date" "DURATION_EXCEEDS_LIMIT" "派遣期間")
      else if duration_days > 365 then
        pure (addWarning r "dispatch_end_date" "LONG_DURATION" "派遣期間")
      else pure r

def queryFactoryById (store : Store) (fid : Int) : Option Factory :=
  store.factories.find? (fun f => f.id == fid)

/-- `_validate_factory_consistency`. -/
def validate_factory_consistency (store : Store) (factory_id : Int)
    (data : PyDict) (r : ValidationResult) : Except PyErr ValidationResult :=
  match queryFactoryById store factory_id with
  | none => .ok (addError r "factory_id" "FACTORY_NOT_FOUND" "工場ID")
  | some factory =>
      let r :=
        if isFalsy factory.client_responsible_name then
          addWarning r "factory" "FACTORY_INCOMPLETE" "工場設定"
        else r
      match factory.conflict_date with
      | some cd =>
          let end0 := dictGet data "dispatch_end_date"
          if isTruthy end0 then do
            let end_date ← convertDateVal end0
            let gt ← pyGt end_date (.vDate cd)
            if gt then
              pure (addError r "dispatch_end_date" "EXCEEDS_CONFLICT_DATE" "抵触日")
            else pure r
          else .ok r
      | none => .ok r

/-- An SQL-level `column >= v` / `column <= v` comparison between a
date column and a raw bound value from the input dict, as the overlap
query issues it: a `date` bound compares directly, an ISO date string
compares chronologically (text affinity), any other bound matches no
row.  SQL comparison does not raise in the embedded store. -/
def dbColGe (col : Int) (v : Val) : Bool :=
  match v with
  | .vDate d => col ≥ d
  | .vStr s => match parseDate s with
      | some d => col ≥ d
      | none => false
  | _ => false

def dbColLe (col : Int) (v : Val) : Bool :=
  match v with
  | .vDate d => col ≤ d
  | .vStr s => match parseDate s with
      | some d => col ≤ d
      | none => false
  | _ => false

def queryEmployeeById (store : Store) (eid : Int) : Option Employee :=
  store.employees.find? (fun e => e.id == eid)

/-- The overlapping-contract query of `_validate_employee_availability`. -/
def employeeHasOverlap (store : Store) (emp_id : Int) (sv ev : Val) : Bool :=
  store.contracts.any (fun c =>
    store.kobetsu_employees.any
      (fun ke => ke.kobetsu_id == c.id && ke.employee_id == emp_id)
    && dbColGe c.dispatch_end_date sv
    && dbColLe c.dispatch_start_date ev
    && (c.status == "active" || c.status == "draft"))

/-- `_validate_employee_availability`. -/
def validate_employee_availability (store : Store) (employee_ids : List Int)
    (start_date end_date : Val) (r : ValidationResult) : ValidationResult :=
  if employee_ids.isEmpty then r
  else
    employee_ids.foldl
      (fun r emp_id =>
        match queryEmployeeById store emp_id with
        | none => addError r "employee_ids" "EMPLOYEE_NOT_FOUND" "従業員"
        | some employee =>
            if pyEq employee.status (.vStr "resigned") then
              addError r "employee_ids" "EMPLOYEE_RESIGNED" "従業員状態"
            else if isTruthy start_date && isTruthy end_date then
              if employeeHasOverlap store emp_id start_date end_date then
                addWarning r "employee_ids" "EMPLOYEE_OVERLAP" "契約重複"
              else r
            else r)
      r

/-- `_validate_overtime_limits`: truthy limits go through `float(...)`
(which can raise) and are compared against the 36協定 limits. -/
def validate_overtime_limits (data : PyDict) (r : ValidationResult) :
    Except PyErr ValidationResult := do
  let daily_max := dictGet data "overtime_max_hours_day"
  let monthly_max := dictGet data "overtime_max_hours_month"
  let r ←
    if isTruthy daily_max then do
      let q ← pyFloat daily_max
      if q > 4 then
        pure (addWarning r "overtime_max_hours_day" "HIGH_DAILY_OVERTIME" "時間外労働（日）")
      else pure r
    else pure r
  if isTruthy monthly_max then do
    let q ← pyFloat monthly_max
    if q > 45 then
      pure (addError r "overtime_max_hours_month" "EXCEEDS_MONTHLY_LIMIT" "時間外労働（月）")
    else pure r
  else pure r

/-- `_validate_rates`: the overtime rate should be at least 1.25x the
hourly rate, and an hourly rate below 900 warns; `float(...)` on the
truthy values can raise. -/
def validate_rates (data : PyDict) (r : ValidationResult) :
    Except PyErr ValidationResult := do
  let hourly := dictGet data "hourly_rate"
  let overtime := dictGet data "overtime_rate"
  let r ←
    if isTruthy hourly && isTruthy overtime then do
      let h ← pyFloat hourly
      let o ← pyFloat overtime
      if o < h * (5 / 4 : ℚ) then
        pure (addWarning r "overtime_rate" "LOW_OVERTIME_RATE" "時間外単価")
      else pure r
    else pure r
  if isTruthy hourly then do
    let h ← pyFloat hourly
    if h < 900 then
      pure (addWarning r "hourly_rate" "LOW_HOURLY_RATE" "時給")
    else pure r
  else pure r

/-- `_calculate_compliance_score`: base score from the field counters
minus 10 per error and 2 per warning, floored at 0 and truncated to an
integer. -/
def calculate_compliance_score (result : ValidationResult) : Int :=
  if result.fields_checked == 0 then 0
  else
    let field_score : ℚ :=
      ((result.fields_valid : ℚ) / (result.fields_checked : ℚ)) * 100
    let error_penalty : ℚ := (result.errors.length : ℚ) * 10
    let warning_penalty : ℚ := (result.warnings.length : ℚ) * 2
    ⌊max 0 (field_score - error_penalty - warning_penalty)⌋

/-- `validate_contract_data`: the full validation pipeline. -/
def validate_contract_data (store : Store) (data : PyDict)
    (factory_id : Option Int := none) (employee_ids : List Int := [])
    (is_update : Bool := false) : Except PyErr ValidationResult := do
  let result : ValidationResult := {}
  let result := validate_required_fields data result
  let result ← validate_dates data result
  let result ←
    match factory_id with
    | some fid => if fid ≠ 0 then validate_factory_consistency store fid data result
                  else pure result
    | none => pure result
  let result :=
    if !employee_ids.isEmpty then
      validate_employee_availability store employee_ids
        (dictGet data "dispatch_start_date") (dictGet data "dispatch_end_date") result
    else result
  let result ← validate_overtime_limits data result
  let result ← validate_rates data result
  let result := { result with compliance_score := calculate_compliance_score result }
  pure { result with is_valid := result.errors.isEmpty }

/-! ## Compliance Auditor (`compliance_checker_service.py`) -/

/-- A compliance violation (`ComplianceViolation`); the display strings
(`message`, `remediation`, `legal_reference`, `metadata`) are out of
scope. -/
structure ComplianceViolation where
  violation_id : String
  severity : String
  category : String := ""
  entity_type : String := ""
  entity_id : Int := 0
  entity_name : String := ""
  violation_type : String := ""
deriving DecidableEq

/-- A compliance audit report (`ComplianceReport`), restricted to the
fields `_calculate_overall_score` consults plus the entity counters;
`report_id`/timestamps are out of scope. -/
structure ComplianceReport where
  scope : String := "full"
  total_entities_audited : Nat := 0
  compliance_score : Int := 100
  violations : List ComplianceViolation := []
  warnings : List ComplianceViolation := []
  contracts_audited : Nat := 0
  contracts_compliant : Nat := 0
  factories_audited : Nat := 0
  factories_compliant : Nat := 0
  employees_audited : Nat := 0
deriving DecidableEq

/-- `weights.get(v.severity, 5)`. -/
def severityWeight (s : String) : Nat :=
  if s == "critical" then 20
  else if s == "high" then 10
  else if s == "medium" then 5
  else if s == "low" then 2
  else 5

/-- `_calculate_overall_score`: 100 for an empty audit, otherwise 100
minus the severity-weighted penalty (plus 1 per warning) scaled by the
maximum penalty `audited * 20`, floored at 0 and truncated to an
integer. -/
def calculate_overall_score (report : ComplianceReport) : Int :=
  if report.total_entities_audited == 0 then 100
  else
    let total_penalty : Nat :=
      (report.violations.map (fun v => severityWeight v.severity)).sum
        + report.warnings.length * 1
    let max_penalty : Nat := report.total_entities_audited * 20
    ⌊max 0 ((100 : ℚ) - ((total_penalty : ℚ) / (max_penalty : ℚ) * 100))⌋

/-! ## Alert Sweeper (`alert_manager_service.py`) -/

inductive AlertPriority where
  | critical | high | medium | low | info
deriving DecidableEq

inductive AlertType where
  | contract_expiring | contract_expired | employee_unassigned
  | factory_incomplete | compliance_violation
  | conflict_date_approaching | visa_expiring
deriving DecidableEq

/-- A single alert (`Alert`); the rendered `title`/`message`/
`action_url`/`metadata` display strings and the `created_at` timestamp
are out of scope.  `expires_in_days : int = None` is an optional
integer. -/
structure Alert where
  type : AlertType
  priority : AlertPriority
  entity_type : String
  entity_id : Int
  entity_name : Val := .vStr ""
  expires_in_days : Option Int := none

/-- Summary of all alerts bucketed by priority (`AlertSummary`). -/
structure AlertSummary where
  critical : List Alert := []
  high : List Alert := []
  medium : List Alert := []
  low : List Alert := []
  info : List Alert := []

/-- The expiring-contract thresholds of `check_expiring_contracts`. -/
def expiring_thresholds : List (Int × AlertPriority) :=
  [(1, .critical), (7, .high), (15, .high), (30, .medium)]

/-- `check_expiring_contracts`: one equality query per threshold day
offset, restricted to offsets within `days_ahead`. -/
def check_expiring_contracts (store : Store) (today : Int)
    (days_ahead : Int := 30) : List Alert :=
  expiring_thresholds.foldl
    (fun alerts entry =>
      let days := entry.1
      if days > days_ahead then alerts
      else
        let target_date := today + days
        alerts ++
          (store.contracts.filter
            (fun c => c.dispatch_end_date == target_date && c.status == "active")).map
            (fun c =>
              { type := .contract_expiring
                priority := entry.2
                entity_type := "contract"
                entity_id := c.id
                entity_name := .vStr c.contract_number
                expires_in_days := some days }))
    []

/-- `check_expired_contracts`: contracts past their end date but still
`active`; `expires_in_days` is the negated days-expired count. -/
def check_expired_contracts (store : Store) (today : Int) : List Alert :=
  (store.contracts.filter
    (fun c => decide (c.dispatch_end_date < today) && c.status == "active")).map
    (fun c =>
      { type := .contract_expired
        priority := .critical
        entity_type := "contract"
        entity_id := c.id
        entity_name := .vStr c.contract_number
        expires_in_days := some (-(today - c.dispatch_end_date)) })

/-- The employee ids covered today by an active contract
(the `assigned_subquery`). -/
def assignedIds (store : Store) (today : Int) : List Int :=
  (store.kobetsu_employees.filter
    (fun ke => store.contracts.any
      (fun c => c.id == ke.kobetsu_id && c.status == "active"
        && decide (c.dispatch_start_date ≤ today)
        && decide (today ≤ c.dispatch_end_date)))).map (·.employee_id)

/-- `check_unassigned_employees`. -/
def check_unassigned_employees (store : Store) (today : Int) : List Alert :=
  (store.employees.filter (fun e => pyEq e.status (.vStr "active"))).filterMap
    (fun e =>
      if (assignedIds store today).contains e.id then none
      else some
        { type := .employee_unassigned
          priority := .high
          entity_type := "employee"
          entity_id := e.id
          entity_name := e.full_name_kanji })

/-- The required-field table of `check_incomplete_factories`. -/
def factory_required_fields : List (String × String × AlertPriority) :=
  [("client_responsible_name", "派遣先責任者", .high),
   ("client_complaint_name", "苦情処理担当者", .medium),
   ("dispatch_responsible_name", "派遣元責任者", .medium),
   ("company_address", "会社住所", .low)]

/-- `getattr(factory, field_name, None)` for the alert sweep's table. -/
def Factory.getField (f : Factory) (name : String) : Val :=
  if name == "client_responsible_name" then f.client_responsible_name
  else if name == "client_complaint_name" then f.client_complaint_name
  else if name == "dispatch_responsible_name" then f.dispatch_responsible_name
  else if name == "company_address" then f.company_address
  else .vNone

/-- `check_incomplete_factories`: collects the missing required fields
of each active factory and raises one alert at the maximum of their
per-field priorities. -/
def check_incomplete_factories (store : Store) : List Alert :=
  (store.factories.filter (·.is_active)).filterMap
    (fun factory =>
      let st := factory_required_fields.foldl
        (fun (st : List String × AlertPriority) entry =>
          if isFalsy (factory.getField entry.1) then
            let missing := st.1 ++ [entry.2.1]
            let maxp :=
              if entry.2.2 = .high then .high
              else if entry.2.2 = .medium ∧ st.2 ≠ .high then .medium
              else st.2
            (missing, maxp)
          else st)
        ([], .low)
      if st.1.isEmpty then none
      else some
        { type := .factory_incomplete
          priority := st.2
          entity_type := "factory"
          entity_id := factory.id
          entity_name := .vStr (factory.company_name ++ " " ++ factory.plant_name) })

/-- `check_approaching_conflict_dates`. -/
def check_approaching_conflict_dates (store : Store) (today : Int)
    (days_ahead : Int := 90) : List Alert :=
  (store.factories.filter
    (fun f => f.is_active &&
      (match f.conflict_date with
       | some cd => decide (cd ≤ today + days_ahead) && decide (today ≤ cd)
       | none => false))).filterMap
    (fun factory =>
      match factory.conflict_date with
      | some cd =>
          let days_remaining := cd - today
          let priority : AlertPriority :=
            if days_remaining ≤ 30 then .critical
            else if days_remaining ≤ 60 then .high
            else .medium
          some
            { type := .conflict_date_approaching
              priority := priority
              entity_type := "factory"
              entity_id := factory.id
              entity_name := .vStr (factory.company_name ++ " " ++ factory.plant_name)
              expires_in_days := some days_remaining }
      | none => none)

/-- `check_expiring_visas`. -/
def check_expiring_visas (store : Store) (today : Int)
    (days_ahead : Int := 60) : List Alert :=
  (store.employees.filter
    (fun e => pyEq e.status (.vStr "active") &&
      (match e.visa_expiry_date with
       | .vDate d => decide (d ≤ today + days_ahead) && decide (today ≤ d)
       | _ => false))).filterMap
    (fun e =>
      match e.visa_expiry_date with
      | .vDate d =>
          let days_remaining := d - today
          let priority : AlertPriority :=
            if days_remaining ≤ 14 then .critical
            else if days_remaining ≤ 30 then .high
            else .medium
          some
            { type := .visa_expiring
              priority := priority
              entity_type := "employee"
              entity_id := e.id
              entity_name := e.full_name_kanji
              expires_in_days := some days_remaining }
      | _ => none)

/-- The sort key `lambda x: x.expires_in_days or 999`: a missing value
-- and, through Python falsiness, also a zero value -- becomes 999. -/
def alertSortKey (a : Alert) : Int :=
  match a.expires_in_days with
  | none => 999
  | some d => if d == 0 then 999 else d

/-- Stable insertion of one alert into a key-sorted list (the earlier
element stays first on equal keys, matching Python's stable `sort`). -/
def insertByKey (a : Alert) : List Alert → List Alert
  | [] => [a]
  | b :: t =>
      if alertSortKey b < alertSortKey a then b :: insertByKey a t
      else a :: b :: t

/-- `list.sort(key=...)`: the unique stable ascending reordering by the
sort key. -/
def sortByKeyStable (l : List Alert) : List Alert :=
  l.foldr insertByKey []

/-- The priority bucketing loop of `get_all_alerts`. -/
def bucketAlerts (all_alerts : List Alert) : AlertSummary :=
  all_alerts.foldl
    (fun s a =>
      match a.priority with
      | .critical => { s with critical := s.critical ++ [a] }
      | .high => { s with high := s.high ++ [a] }
      | .medium => { s with medium := s.medium ++ [a] }
      | .low => { s with low := s.low ++ [a] }
      | .info => { s with info := s.info ++ [a] })
    {}

/-- One sub-check run against the store, with an injected operational
fault (`fault = true` models the store raising during that check's
query, per §7(c) of the spec). -/
def runCheck (fault : Bool) (alerts : List Alert) : Except PyErr (List Alert) :=
  if fault then .error .storeUnreachable else .ok alerts

/-- `get_all_alerts`: runs the six checks in sequence (no per-check
exception handling in the source), buckets by priority and sorts the
critical and high buckets by `expires_in_days or 999`.  `fault i`
injects an operational store failure into the `i`-th check. -/
def get_all_alerts (store : Store) (today : Int) (fault : Nat → Bool) :
    Except PyErr AlertSummary := do
  let a0 ← runCheck (fault 0) (check_expiring_contracts store today 30)
  let a1 ← runCheck (fault 1) (check_expired_contracts store today)
  let a2 ← runCheck (fault 2) (check_unassigned_employees store today)
  let a3 ← runCheck (fault 3) (check_incomplete_factories store)
  let a4 ← runCheck (fault 4) (check_approaching_conflict_dates store today 90)
  let a5 ← runCheck (fault 5) (check_expiring_visas store today 60)
  let summary := bucketAlerts (a0 ++ a1 ++ a2 ++ a3 ++ a4 ++ a5)
  pure { summary with
           critical := sortByKeyStable summary.critical
           high := sortByKeyStable summary.high }

/-- Whether an embedded call returned normally (`.ok`) rather than
raising. -/
def isOk {ε α : Type _} : Except ε α → Bool
  | .ok _ => true
  | .error _ => false

/-! ## Shared helper lemmas -/

theorem isOk_ok {ε α : Type _} (a : α) : isOk (ε := ε) (.ok a) = true := rfl

theorem resolveLoop_strategy_irrelevant (manual : List (String × ConflictStrategy))
    (s₁ s₂ : ConflictStrategy) (h₁ : s₁ ≠ .db_wins) (h₂ : s₂ ≠ .db_wins)
    (h₁' : s₁ ≠ .manual) (h₂' : s₂ ≠ .manual) :
    ∀ (conflicts : List SyncConflict) (pending : List Employee) (result : SyncResult),
      resolveLoop manual s₁ conflicts pending result =
        resolveLoop manual s₂ conflicts pending result := by
  intro conflicts
  induction conflicts with
  | nil => intro pending result; rfl
  | cons c rest ih =>
      intro pending result
      have ihf : resolveLoop manual s₁ rest = resolveLoop manual s₂ rest :=
        funext fun p => funext fun r => ih p r
      have happ : ∀ (e : Employee) (src : PyDict),
          apply_employee_changes e src s₁ = apply_employee_changes e src s₂ :=
        fun _ _ => rfl
      simp only [resolveLoop]
      cases hfind : manual.find? (fun p => p.1 == c.entity_key) with
      | some p => simp only [resolution_for, hfind, ihf]
      | none =>
          simp only [resolution_for, hfind]
          rw [if_neg h₁, if_neg h₂]
          rw [if_neg (by simp [h₁']), if_neg (by simp [h₂'])]
          simp only [ihf, happ]

/-- The order on alerts actually implemented by the bucket sort: by
`alertSortKey` (that is, by `expires_in_days or 999`). -/
def alertLE (a b : Alert) : Prop := alertSortKey a ≤ alertSortKey b

instance : DecidableRel alertLE := fun _ _ => Int.decLe _ _

instance : IsTotal Alert alertLE := ⟨fun _ _ => Int.le_total _ _⟩

instance : IsTrans Alert alertLE := ⟨fun _ _ _ => Int.le_trans⟩

theorem insertByKey_eq_orderedInsert (a : Alert) (l : List Alert) :
    insertByKey a l = List.orderedInsert alertLE a l := by
  induction l with
  | nil => rfl
  | cons b t ih =>
      simp only [insertByKey, List.orderedInsert]
      by_cases h : alertSortKey b < alertSortKey a
      · rw [if_pos h, if_neg (show ¬alertLE a b from not_le.mpr h), ih]
      · rw [if_neg h, if_pos (show alertLE a b from not_lt.mp h)]

theorem sortByKeyStable_eq_insertionSort (l : List Alert) :
    sortByKeyStable l = List.insertionSort alertLE l := by
  induction l with
  | nil => rfl
  | cons b t ih =>
      show insertByKey b (sortByKeyStable t) = _
      rw [ih, insertByKey_eq_orderedInsert]
      rfl

theorem sorted_sortByKeyStable (l : List Alert) :
    (sortByKeyStable l).Sorted alertLE := by
  rw [sortByKeyStable_eq_insertionSort]
  exact List.sorted_insertionSort alertLE l

theorem get_all_alerts_isOk_iff_no_fault (store : Store) (today : Int)
    (fault : Nat → Bool) :
    isOk (get_all_alerts store today fault) =
      (!fault 0 && !fault 1 && !fault 2 && !fault 3 && !fault 4 && !fault 5) := by
  unfold get_all_alerts
  cases h0 : fault 0 <;> cases h1 : fault 1 <;> cases h2 : fault 2 <;>
    cases h3 : fault 3 <;> cases h4 : fault 4 <;> cases h5 : fault 5 <;>
    simp [h0, h1, h2, h3, h4, h5, runCheck, Bind.bind, Except.bind, isOk,
      Functor.map, Except.map, pure, Except.pure]

/-- The ordering the claim describes for the critical/high buckets:
ascending by remaining days, with alerts lacking a remaining-days value
after all alerts that have one. -/
def claimedBucketOrder : List Alert → Bool
  | [] => true
  | [_] => true
  | a :: b :: t =>
      (match a.expires_in_days, b.expires_in_days with
       | some x, some y => decide (x ≤ y)
       | some _, none => true
       | none, none => true
       | none, some _ => false) && claimedBucketOrder (b :: t)

/-- Store for the C7 counterexample: one factory whose legal cutoff
date is today (zero days remaining) and one contract expiring
tomorrow. -/
def c7store : Store :=
  { factories := [{ id := 1, factory_id := "F1", company_name := "A", plant_name := "P",
                    conflict_date := some 0, is_active := true }],
    contracts := [{ id := 1, contract_number := "K1", dispatch_start_date := -10,
                    dispatch_end_date := 1, status := "active" }] }

/-- Store for the C8 counterexample: an active factory with missing
required fields, so a later check has an alert to contribute. -/
def c8store : Store :=
  { factories := [{ id := 2, factory_id := "F2", company_name := "B", plant_name := "Q",
                    is_active := true }] }

/-- Store for the C9 witness: one active contract ending tomorrow. -/
def c9wstore : Store :=
  { contracts := [{ id := 11, contract_number := "K-1", dispatch_start_date := -30,
                    dispatch_end_date := 1, status := "active" }] }

/-- The alert `check_expiring_contracts` produces for `c9wstore`. -/
def c9walert : Alert :=
  { type := .contract_expiring, priority := .critical, entity_type := "contract",
    entity_id := 11, entity_name := .vStr "K-1", expires_in_days := some 1 }

/-- Store for the C9 witness: one active contract ending at today+5,
inside the 30-day window but at none of the threshold offsets. -/
def c9bstore : Store :=
  { contracts := [{ id := 12, contract_number := "K-2", dispatch_start_date := -30,
                    dispatch_end_date := 5, status := "active" }] }

theorem setField_employee_number (e : Employee) (f : String) (v : Val) :
    (e.setField f v).employee_number = e.employee_number := by
  simp only [Employee.setField, apply_ite (fun x : Employee => x.employee_number),
    ite_self]

theorem applyFold_employee_number (fields : List String) (src : PyDict) :
    ∀ (e e' : Employee),
      (fields.foldlM
        (fun emp f =>
          let source_val := dictGet src f
          if source_val matches .vNone then pure emp
          else do
            let v ← convertFieldVal f source_val
            pure (emp.setField f v))
        e) = .ok e' → e'.employee_number = e.employee_number := by
  induction fields with
  | nil => intro e e' h; exact (Except.ok.inj h) ▸ rfl
  | cons f t ih =>
      intro e e' h
      rw [List.foldlM_cons] at h
      by_cases hv : dictGet src f matches Val.vNone
      · simp only [hv, if_true] at h
        exact ih e e' h
      · simp only [hv, Bool.false_eq_true, if_false] at h
        cases hc : convertFieldVal f (dictGet src f) with
        | error err =>
            rw [hc] at h
            simp [Bind.bind, Except.bind] at h
        | ok v =>
            rw [hc] at h
            simp only [Bind.bind, Except.bind, pure, Except.pure] at h
            rw [ih _ _ h, setField_employee_number]

theorem apply_employee_changes_number (e : Employee) (src : PyDict)
    (st : ConflictStrategy) (e' : Employee)
    (h : apply_employee_changes e src st = .ok e') :
    e'.employee_number = e.employee_number :=
  applyFold_employee_number updatable_fields src e e' h

theorem filter_updateFirstEmployee (l : List Employee) (k k' : String) (e' : Employee)
    (hk : k' ≠ k) (he : e'.employee_number = k') :
    (updateFirstEmployee l k' e').filter (fun e => e.employee_number == k) =
      l.filter (fun e => e.employee_number == k) := by
  induction l with
  | nil => rfl
  | cons x t ih =>
      simp only [updateFirstEmployee]
      by_cases hx : x.employee_number == k'
      · rw [if_pos hx]
        have hxeq : x.employee_number = k' := by simpa using hx
        have hxk : (x.employee_number == k) = false := by
          rw [beq_eq_false_iff_ne, hxeq]; exact hk
        have hek : (e'.employee_number == k) = false := by
          rw [beq_eq_false_iff_ne, he]; exact hk
        simp [List.filter_cons, hxk, hek]
      · rw [if_neg hx]
        simp only [List.filter_cons]
        rw [ih]

theorem manualHas_false_find?_none (manual : List (String × ConflictStrategy))
    (k : String) (hk : manualHas manual k = false) :
    manual.find? (fun p => p.1 == k) = none := by
  rw [List.find?_eq_none]
  intro p hp
  intro hpk
  have : manual.any (fun p => p.1 == k) = true := List.any_of_mem hp hpk
  rw [manualHas] at hk
  rw [this] at hk
  exact Bool.noConfusion hk

theorem resolveLoop_db_wins_filter (manual : List (String × ConflictStrategy))
    (k : String) (hk : manualHas manual k = false) :
    ∀ (conflicts : List SyncConflict) (pending : List Employee) (result : SyncResult)
      (p' : List Employee) (r' : SyncResult),
      resolveLoop manual .db_wins conflicts pending result = .ok (p', r') →
      p'.filter (fun e => e.employee_number == k) =
        pending.filter (fun e => e.employee_number == k) := by
  intro conflicts
  induction conflicts with
  | nil =>
      intro pending result p' r' h
      simp only [resolveLoop] at h
      injection h with h2
      injection h2 with ha hb
      rw [← ha]
  | cons c rest ih =>
      intro pending result p' r' h
      simp only [resolveLoop] at h
      by_cases hres : resolution_for manual .db_wins c.entity_key = .db_wins
      · rw [if_pos hres] at h
        exact ih _ _ _ _ h
      · rw [if_neg hres] at h
        have hfind : ∃ p, manual.find? (fun q => q.1 == c.entity_key) = some p := by
          cases hf : manual.find? (fun q => q.1 == c.entity_key) with
          | none => exact absurd (by simp [resolution_for, hf]) hres
          | some p => exact ⟨p, rfl⟩
        obtain ⟨p, hp⟩ := hfind
        have hpred : (p.1 == c.entity_key) = true := by
          have := List.find?_some hp
          simpa using this
        have hkey : manualHas manual c.entity_key = true :=
          List.any_of_mem (List.mem_of_find?_eq_some hp) hpred
        have hkne : c.entity_key ≠ k := by
          intro e
          rw [e, hk] at hkey
          exact Bool.noConfusion hkey
        split at h
        · exact ih _ _ _ _ h
        · split at h
          next db_emp heq =>
            split at h
            · split at h
              next emp' heq2 =>
                rw [ih _ _ _ _ h]
                have hnum := apply_employee_changes_number _ _ _ _ heq2
                have heq' : pending.find? (fun e => e.employee_number == c.entity_key) =
                    some db_emp := heq
                have hdb : db_emp.employee_number = c.entity_key := by
                  simpa using List.find?_some heq'
                exact filter_updateFirstEmployee _ _ _ _ hkne (hnum.trans hdb)
              next e2 heq2 => exact absurd h (by simp)
            · exact ih _ _ _ _ h
          next heq => exact ih _ _ _ _ h

theorem resolveLoop_skipped_count (manual : List (String × ConflictStrategy))
    (strategy : ConflictStrategy) :
    ∀ (conflicts : List SyncConflict) (pending : List Employee) (result : SyncResult)
      (p' : List Employee) (r' : SyncResult),
      resolveLoop manual strategy conflicts pending result = .ok (p', r') →
      r'.skipped = result.skipped +
        conflicts.countP
          (fun c => decide (resolution_for manual strategy c.entity_key = .db_wins)) := by
  intro conflicts
  induction conflicts with
  | nil =>
      intro pending result p' r' h
      simp only [resolveLoop] at h
      injection h with h2
      injection h2 with ha hb
      rw [← hb]
      simp
  | cons c rest ih =>
      intro pending result p' r' h
      simp only [resolveLoop] at h
      rw [List.countP_cons]
      by_cases hres : resolution_for manual strategy c.entity_key = .db_wins
      · rw [if_pos hres] at h
        rw [ih _ _ _ _ h]
        simp [hres]
        try omega
      · rw [if_neg hres] at h
        have hcount : (decide (resolution_for manual strategy c.entity_key =
            ConflictStrategy.db_wins) : Bool) = false := by simp [hres]
        rw [hcount]
        simp only [if_false, Bool.false_eq_true]
        split at h
        · rw [ih _ _ _ _ h]
          simp
        · split at h
          next db_emp heq =>
            split at h
            · split at h
              next emp' heq2 =>
                rw [ih _ _ _ _ h]
                simp
              next e2 heq2 => exact absurd h (by simp)
            · rw [ih _ _ _ _ h]
              simp
          next heq =>
            rw [ih _ _ _ _ h]
            simp

/-- Store for the C5 counterexample. -/
def c5store : Store :=
  { employees := [{ id := 1, employee_number := "A" },
                  { id := 2, employee_number := "B", department := .vStr "X" }] }

/-- Analysis for the C5 counterexample: two conflicting records; "A"
carries an unparseable date in its source record, "B" has no manual
override. -/
def c5analysis : SyncAnalysis :=
  { conflicts :=
      [{ entity_type := "employee", entity_key := "A", entity_name := .vStr "a",
         source_record := [("visa_expiry_date", .vStr "bad")], db_record_id := 1 },
       { entity_type := "employee", entity_key := "B", entity_name := .vStr "b",
         source_record := [("department", .vStr "Y")], db_record_id := 2 }] }

/-- The SyncResult the C5 counterexample run returns. -/
def c5result : SyncResult :=
  { success := false, errors := ["time data bad does not match format"],
    snapshot_id := "sync_employees" }

/-- Store for the C5 witness. -/
def c5wstore : Store :=
  { employees := [{ id := 2, employee_number := "B", department := .vStr "X" }] }

/-- The single conflicting record of the C5 witness. -/
def c5wconflict : SyncConflict :=
  { entity_type := "employee", entity_key := "B", entity_name := .vStr "b",
    source_record := [("department", .vStr "Y")], db_record_id := 2 }

def c5wanalysis : SyncAnalysis := { conflicts := [c5wconflict] }

/-- The SyncResult of the C5 witness run: the conflict is skipped. -/
def c5wresult : SyncResult :=
  { success := true, skipped := 1, snapshot_id := "sync_employees" }

/-- Store for the C1 counterexample. -/
def c1store : Store :=
  { employees := [{ id := 1, employee_number := "E" }] }

/-- Analysis for the C1 counterexample: one conflict whose resolution
applies a status change. -/
def c1analysis : SyncAnalysis :=
  { conflicts :=
      [{ entity_type := "employee", entity_key := "E", entity_name := .vStr "e",
         source_record := [("status", .vStr "resigned")], db_record_id := 1 }] }

/-- The SyncResult of the C1 counterexample run: the mutation was
applied (updated = 1), the commit failed, the store was rolled back and
the failure was reported -- not raised. -/
def c1result : SyncResult :=
  { success := false, updated := 1, conflicts_resolved := 1,
    errors := ["CommitError"], snapshot_id := "sync_employees" }

theorem foldr_compareStep_countP (source : PyDict) (db : Employee) (f : String) :
    ∀ entries : List (String × String × ConflictSeverity),
      ((entries.foldr (compareStep source db) []).countP
          (fun fc => fc.field_name == f)) =
        entries.countP (fun entry => compareCond source db entry.1 && entry.1 == f) := by
  intro entries
  induction entries with
  | nil => rfl
  | cons entry t ih =>
      simp only [List.foldr_cons, List.countP_cons, compareStep]
      by_cases hc : compareCond source db entry.1
      · rw [if_pos hc]
        rw [List.countP_cons]
        rw [ih]
        simp [mkFieldConflict, hc]
      · rw [if_neg hc]
        rw [ih]
        simp [hc]

theorem compare_employee_one_conflict_per_field (source : PyDict) (db : Employee)
    (f : String) (jn : String) (sev : ConflictSeverity)
    (hmem : (f, jn, sev) ∈ compare_fields) :
    (compare_employee source db).countP (fun fc => fc.field_name == f) =
      if compareCond source db f then 1 else 0 := by
  rw [compare_employee, foldr_compareStep_countP]
  fin_cases hmem <;> simp [compare_fields, List.countP_cons, compareCond]

theorem analyzeStep_db_only (M : List (String × Employee))
    (st : SyncAnalysis × List String) (r : PyDict) :
    (analyzeStep M st r).1.db_only = st.1.db_only := by
  simp only [analyzeStep]
  split
  · rfl
  · cases lookupEmp M (sourceKey r) with
    | none => rfl
    | some e =>
        simp only
        split <;> rfl

theorem analyzeStep_buckets (M : List (String × Employee))
    (st : SyncAnalysis × List String) (r : PyDict) :
    ∃ tc un cf,
      (analyzeStep M st r).1.to_create = st.1.to_create ++ tc ∧
      (analyzeStep M st r).1.unchanged = st.1.unchanged ++ un ∧
      (analyzeStep M st r).1.conflicts = st.1.conflicts ++ cf := by
  simp only [analyzeStep]
  split
  · exact ⟨[], [], [], by simp, by simp, by simp⟩
  · cases lookupEmp M (sourceKey r) with
    | none => exact ⟨_, [], [], rfl, by simp, by simp⟩
    | some e =>
        simp only
        split
        · exact ⟨[], [], _, by simp, by simp, rfl⟩
        · exact ⟨[], _, [], by simp, rfl, by simp⟩

theorem analyzeLoop_buckets (M : List (String × Employee)) :
    ∀ (src : List PyDict) (st : SyncAnalysis × List String),
      ∃ tc un cf,
        (List.foldl (analyzeStep M) st src).1.to_create = st.1.to_create ++ tc ∧
        (List.foldl (analyzeStep M) st src).1.unchanged = st.1.unchanged ++ un ∧
        (List.foldl (analyzeStep M) st src).1.conflicts = st.1.conflicts ++ cf ∧
        (List.foldl (analyzeStep M) st src).1.db_only = st.1.db_only := by
  intro src
  induction src with
  | nil => intro st; exact ⟨[], [], [], by simp, by simp, by simp, rfl⟩
  | cons a t ih =>
      intro st
      rw [List.foldl_cons]
      obtain ⟨tc2, un2, cf2, h1, h2, h3, h4⟩ := ih (analyzeStep M st a)
      obtain ⟨tc1, un1, cf1, g1, g2, g3⟩ := analyzeStep_buckets M st a
      exact ⟨tc1 ++ tc2, un1 ++ un2, cf1 ++ cf2,
        by rw [h1, g1, List.append_assoc],
        by rw [h2, g2, List.append_assoc],
        by rw [h3, g3, List.append_assoc],
        by rw [h4, analyzeStep_db_only]⟩

theorem analyzeStep_create_eq (M : List (String × Employee))
    (st : SyncAnalysis × List String) (r : PyDict)
    (hk : sourceKey r ≠ "") (hl : lookupEmp M (sourceKey r) = none) :
    (analyzeStep M st r).1.to_create = st.1.to_create ++
      [{ employee_number := sourceKey r
         full_name := dictGetD r "full_name_kanji" (.vStr "")
         company_name := dictGetD r "company_name" (.vStr "") }] := by
  simp only [analyzeStep]
  rw [if_neg (by simpa using hk), hl]

theorem analyzeStep_unchanged_eq (M : List (String × Employee))
    (st : SyncAnalysis × List String) (r : PyDict) (e : Employee)
    (hk : sourceKey r ≠ "") (hl : lookupEmp M (sourceKey r) = some e)
    (hc : compare_employee r e = []) :
    (analyzeStep M st r).1.unchanged = st.1.unchanged ++ [sourceKey r] := by
  simp only [analyzeStep]
  rw [if_neg (by simpa using hk), hl]
  simp only [hc]
  rfl

theorem analyzeStep_conflicts_eq (M : List (String × Employee))
    (st : SyncAnalysis × List String) (r : PyDict) (e : Employee)
    (hk : sourceKey r ≠ "") (hl : lookupEmp M (sourceKey r) = some e)
    (hc : compare_employee r e ≠ []) :
    (analyzeStep M st r).1.conflicts = st.1.conflicts ++
      [{ entity_type := "employee"
         entity_key := sourceKey r
         entity_name := e.full_name_kanji
         conflicts := compare_employee r e
         source_record := r
         db_record_id := e.id }] := by
  simp only [analyzeStep]
  rw [if_neg (by simpa using hk), hl]
  simp only
  rw [if_pos (by simpa using hc)]

theorem analyzeStep_keys (M : List (String × Employee))
    (st : SyncAnalysis × List String) (r : PyDict) :
    (analyzeStep M st r).2 = st.2 ∨
      (analyzeStep M st r).2 = st.2 ++ [sourceKey r] := by
  simp only [analyzeStep]
  split
  · exact Or.inl rfl
  · cases lookupEmp M (sourceKey r) with
    | none => exact Or.inr rfl
    | some e =>
        simp only
        split
        · exact Or.inr rfl
        · exact Or.inr rfl

theorem analyzeLoop_keys (M : List (String × Employee)) :
    ∀ (src : List PyDict) (st : SyncAnalysis × List String) (x : String),
      x ∈ (List.foldl (analyzeStep M) st src).2 →
      x ∈ st.2 ∨ ∃ r ∈ src, sourceKey r = x := by
  intro src
  induction src with
  | nil => intro st x hx; exact Or.inl hx
  | cons a t ih =>
      intro st x hx
      rw [List.foldl_cons] at hx
      rcases ih (analyzeStep M st a) x hx with h | ⟨r, hr, hrx⟩
      · rcases analyzeStep_keys M st a with he | he
        · rw [he] at h; exact Or.inl h
        · rw [he] at h
          rcases List.mem_append.mp h with h' | h'
          · exact Or.inl h'
          · exact Or.inr ⟨a, List.mem_cons_self a t, (List.mem_singleton.mp h').symm⟩
      · exact Or.inr ⟨r, List.mem_cons_of_mem a hr, hrx⟩

theorem analyzeLoop_mem_to_create (M : List (String × Employee)) :
    ∀ (src : List PyDict) (st : SyncAnalysis × List String) (r : PyDict),
      r ∈ src → sourceKey r ≠ "" → lookupEmp M (sourceKey r) = none →
      sourceKey r ∈
        (List.foldl (analyzeStep M) st src).1.to_create.map (·.employee_number) := by
  intro src
  induction src with
  | nil => intro st r hr; cases hr
  | cons a t ih =>
      intro st r hr hk hl
      rw [List.foldl_cons]
      rcases List.mem_cons.mp hr with rfl | hr'
      · obtain ⟨tc, _, _, h1, _, _, _⟩ := analyzeLoop_buckets M t (analyzeStep M st r)
        rw [h1, analyzeStep_create_eq M st r hk hl]
        simp
      · exact ih _ r hr' hk hl

theorem analyzeLoop_mem_unchanged (M : List (String × Employee)) :
    ∀ (src : List PyDict) (st : SyncAnalysis × List String) (r : PyDict) (e : Employee),
      r ∈ src → sourceKey r ≠ "" → lookupEmp M (sourceKey r) = some e →
      compare_employee r e = [] →
      sourceKey r ∈ (List.foldl (analyzeStep M) st src).1.unchanged := by
  intro src
  induction src with
  | nil => intro st r e hr; cases hr
  | cons a t ih =>
      intro st r e hr hk hl hc
      rw [List.foldl_cons]
      rcases List.mem_cons.mp hr with rfl | hr'
      · obtain ⟨_, un, _, _, h2, _, _⟩ := analyzeLoop_buckets M t (analyzeStep M st r)
        rw [h2, analyzeStep_unchanged_eq M st r e hk hl hc]
        simp
      · exact ih _ r e hr' hk hl hc

theorem analyzeLoop_mem_conflicts (M : List (String × Employee)) :
    ∀ (src : List PyDict) (st : SyncAnalysis × List String) (r : PyDict) (e : Employee),
      r ∈ src → sourceKey r ≠ "" → lookupEmp M (sourceKey r) = some e →
      compare_employee r e ≠ [] →
      ∃ sc ∈ (List.foldl (analyzeStep M) st src).1.conflicts,
        sc.entity_key = sourceKey r ∧ sc.conflicts = compare_employee r e := by
  intro src
  induction src with
  | nil => intro st r e hr; cases hr
  | cons a t ih =>
      intro st r e hr hk hl hc
      rw [List.foldl_cons]
      rcases List.mem_cons.mp hr with rfl | hr'
      · obtain ⟨_, _, cf, _, _, h3, _⟩ := analyzeLoop_buckets M t (analyzeStep M st r)
        rw [h3, analyzeStep_conflicts_eq M st r e hk hl hc]
        exact ⟨_, List.mem_append.mpr (Or.inl (List.mem_append.mpr
          (Or.inr (List.mem_singleton.mpr rfl)))), rfl, rfl⟩
      · exact ih _ r e hr' hk hl hc

theorem analyzeLoop_db_only_eq (M : List (String × Employee)) :
    ∀ (src : List PyDict) (st : SyncAnalysis × List String),
      (List.foldl (analyzeStep M) st src).1.db_only = st.1.db_only := by
  intro src
  induction src with
  | nil => intro st; rfl
  | cons a t ih =>
      intro st
      rw [List.foldl_cons, ih, analyzeStep_db_only]

/-- Stored employee for the C3 counterexample. -/
def c3emp : Employee := { id := 1, employee_number := "001", full_name_kanji := .vStr "X" }

def c3store : Store := { employees := [c3emp] }

/-- Source record for the C3 counterexample: same natural key, but an
empty string in the tracked field whose stored value is "X". -/
def c3rec : PyDict := [("employee_number", .vStr "001"), ("full_name_kanji", .vStr "")]

def c3source : List PyDict := [c3rec]

def c3wempA : Employee := { id := 1, employee_number := "001", full_name_kanji := .vStr "A" }

def c3wempB : Employee := { id := 2, employee_number := "002", full_name_kanji := .vStr "B" }

def c3wempC : Employee := { id := 3, employee_number := "003", full_name_kanji := .vStr "C" }

/-- Store for the C3 witness: one employee to update, one unchanged,
one present only in the store. -/
def c3wstore : Store := { employees := [c3wempA, c3wempB, c3wempC] }

def c3wrec1 : PyDict := [("employee_number", .vStr "001"), ("full_name_kanji", .vStr "A2")]

def c3wrec2 : PyDict := [("employee_number", .vStr "002"), ("full_name_kanji", .vStr "B")]

def c3wrec3 : PyDict := [("employee_number", .vStr "new")]

def c3wsource : List PyDict := [c3wrec1, c3wrec2, c3wrec3]

/-! ## Claim theorems -/

/-- C6: the overall compliance score is non-increasing in the violation
list: with the audited-entity count and the warning list fixed,
appending any additional violation never increases the score computed
by `_calculate_overall_score`. -/
theorem overall_score_nonincreasing_in_violations
    (report : ComplianceReport) (v : ComplianceViolation) :
    calculate_overall_score { report with violations := report.violations ++ [v] } ≤
      calculate_overall_score report := by
  unfold calculate_overall_score
  rcases Nat.eq_zero_or_pos report.total_entities_audited with h | h
  · simp [h]
  · have hne : report.total_entities_audited ≠ 0 := Nat.pos_iff_ne_zero.mp h
    have hb : (report.total_entities_audited == 0) = false := by
      simpa using hne
    simp only [hb, Bool.false_eq_true, if_false, List.map_append, List.sum_append,
      List.map_cons, List.map_nil, List.sum_cons, List.sum_nil]
    have hM : (0 : ℚ) < ((report.total_entities_audited * 20 : ℕ) : ℚ) := by
      have : 0 < report.total_entities_audited * 20 := Nat.mul_pos h (by norm_num)
      exact_mod_cast this
    apply Int.floor_le_floor
    apply max_le_max le_rfl
    apply sub_le_sub_left
    apply mul_le_mul_of_nonneg_right ?_ (by norm_num : (0 : ℚ) ≤ 100)
    rw [div_le_div_iff_of_pos_right hM]
    exact_mod_cast (by omega :
      (report.violations.map fun v => severityWeight v.severity).sum
          + report.warnings.length * 1 ≤
        (report.violations.map fun v => severityWeight v.severity).sum
          + (severityWeight v.severity + 0) + report.warnings.length * 1)


/-- C10: for the resolutions `source_wins` and `newest_wins` the
Resolver produces identical stored state: `_apply_employee_changes`
ignores which of the two strategies is in effect, and an entire
`resolve_employee_conflicts` run with default strategy `source_wins`
equals the same run with `newest_wins`, so no modification-timestamp
comparison distinguishes them. -/
theorem source_wins_newest_wins_equivalent :
    (∀ (e : Employee) (src : PyDict) (s₁ s₂ : ConflictStrategy),
        apply_employee_changes e src s₁ = apply_employee_changes e src s₂) ∧
    (∀ (store : Store) (analysis : SyncAnalysis)
        (manual : List (String × ConflictStrategy)) (commitFault : Bool),
        resolve_employee_conflicts store analysis .source_wins manual commitFault =
          resolve_employee_conflicts store analysis .newest_wins manual commitFault) := by
  refine ⟨fun _ _ _ _ => rfl, fun store analysis manual cf => ?_⟩
  have h := resolveLoop_strategy_irrelevant manual .source_wins .newest_wins
    (by decide) (by decide) (by decide) (by decide) analysis.conflicts
  unfold resolve_employee_conflicts
  simp only [h]


/-- C9: `check_expiring_contracts` (at its default 30-day horizon)
produces a contract-expiring alert only for active contracts whose end
date is exactly today+1, today+7, today+15 or today+30; a store whose
contracts all sit at other offsets (for example today+5) yields no
contract-expiring alert at all. -/
theorem check_expiring_contracts_exact_offsets (store : Store) (today : Int) :
    (∀ a ∈ check_expiring_contracts store today 30,
        a.type = .contract_expiring ∧
        ∃ c ∈ store.contracts, c.status = "active" ∧ a.entity_id = c.id ∧
          (c.dispatch_end_date = today + 1 ∨ c.dispatch_end_date = today + 7 ∨
            c.dispatch_end_date = today + 15 ∨ c.dispatch_end_date = today + 30)) ∧
    ((∀ c ∈ store.contracts,
        c.dispatch_end_date ≠ today + 1 ∧ c.dispatch_end_date ≠ today + 7 ∧
          c.dispatch_end_date ≠ today + 15 ∧ c.dispatch_end_date ≠ today + 30) →
      check_expiring_contracts store today 30 = []) := by
  constructor
  · intro a ha
    simp [check_expiring_contracts, expiring_thresholds, List.mem_append,
      List.mem_map, List.mem_filter] at ha
    rcases ha with ⟨c, ⟨hc, hd, hs⟩, rfl⟩ | ⟨c, ⟨hc, hd, hs⟩, rfl⟩ |
        ⟨c, ⟨hc, hd, hs⟩, rfl⟩ | ⟨c, ⟨hc, hd, hs⟩, rfl⟩ <;>
      exact ⟨rfl, c, hc, hs, rfl, by tauto⟩
  · intro h
    simp [check_expiring_contracts, expiring_thresholds]
    refine ⟨?_, ?_, ?_, ?_⟩ <;>
      · intro c hc hd
        rcases h c hc with ⟨h1, h7, h15, h30⟩
        first
        | exact absurd hd h1
        | exact absurd hd h7
        | exact absurd hd h15
        | exact absurd hd h30

/-- Witness for C9 at concrete stores: the contract ending tomorrow
produces exactly its alert, and the contract ending at today+5
produces none. -/
theorem check_expiring_contracts_exact_offsets_witness :
    (c9walert.type = AlertType.contract_expiring ∧
      ∃ c ∈ c9wstore.contracts, c.status = "active" ∧ c9walert.entity_id = c.id ∧
        (c.dispatch_end_date = (0 : Int) + 1 ∨ c.dispatch_end_date = (0 : Int) + 7 ∨
          c.dispatch_end_date = (0 : Int) + 15 ∨ c.dispatch_end_date = (0 : Int) + 30)) ∧
    check_expiring_contracts c9bstore 0 30 = [] :=
  ⟨(check_expiring_contracts_exact_offsets c9wstore 0).1 c9walert
      (by rw [show check_expiring_contracts c9wstore 0 30 = [c9walert] from rfl]
          exact List.mem_singleton.mpr rfl),
    (check_expiring_contracts_exact_offsets c9bstore 0).2 (by decide)⟩

/-- C7 (counterexample): with a factory whose cutoff date is today and
a contract expiring tomorrow, the critical bucket comes out as
remaining-days `[1, 0]` -- the zero-days alert has a remaining-days
value yet is ordered after the one-day alert, because the sort key
`expires_in_days or 999` sends a zero value to 999.  The bucket
therefore violates the claimed ordering. -/
theorem alert_critical_bucket_not_ascending_counterexample :
    (get_all_alerts c7store 0 (fun _ => false)).map
        (fun s => s.critical.map (fun a => a.expires_in_days)) = .ok [some 1, some 0] ∧
    (get_all_alerts c7store 0 (fun _ => false)).map
        (fun s => claimedBucketOrder s.critical) = .ok false :=
  ⟨rfl, rfl⟩

/-- C7 (amended): in the AlertSummary returned by `get_all_alerts`,
the critical and the high buckets are each stably sorted ascending by
the sort key `expires_in_days or 999` -- i.e. ascending by remaining
days except that alerts with no remaining-days value *or a zero
remaining-days value* are placed after all alerts with a nonzero
value. -/
theorem alert_buckets_sorted_by_or_key (store : Store) (today : Int)
    (fault : Nat → Bool) (s : AlertSummary)
    (h : get_all_alerts store today fault = .ok s) :
    s.critical.Sorted alertLE ∧ s.high.Sorted alertLE := by
  unfold get_all_alerts at h
  cases h0 : fault 0 <;>
    simp only [h0, runCheck, Bool.false_eq_true, if_false, if_true, Bind.bind,
      Except.bind] at h
  case true => simp at h
  cases h1 : fault 1 <;> simp only [h1, Bool.false_eq_true, if_false, if_true] at h
  case true => simp at h
  cases h2 : fault 2 <;> simp only [h2, Bool.false_eq_true, if_false, if_true] at h
  case true => simp at h
  cases h3 : fault 3 <;> simp only [h3, Bool.false_eq_true, if_false, if_true] at h
  case true => simp at h
  cases h4 : fault 4 <;> simp only [h4, Bool.false_eq_true, if_false, if_true] at h
  case true => simp at h
  cases h5 : fault 5 <;>
    simp only [h5, Bool.false_eq_true, if_false, if_true, Functor.map, Except.map,
      pure, Except.pure] at h
  case true => simp at h
  obtain rfl : _ = s := Except.ok.inj h
  exact ⟨sorted_sortByKeyStable _, sorted_sortByKeyStable _⟩

/-- Witness for the amended C7 on a concrete fault-free run. -/
theorem alert_buckets_sorted_by_or_key_witness :
    ((AlertSummary.mk [] [] [] [] []).critical.Sorted alertLE) ∧
    ((AlertSummary.mk [] [] [] [] []).high.Sorted alertLE) :=
  alert_buckets_sorted_by_or_key {} 0 (fun _ => false) (AlertSummary.mk [] [] [] [] []) rfl

/-- C8 (counterexample): one failing check does abort the whole sweep:
with the store raising during `check_expiring_contracts` (check 0),
`get_all_alerts` propagates the error and returns no AlertSummary,
even though `check_incomplete_factories` had an alert to contribute. -/
theorem failing_check_aborts_sweep_counterexample :
    get_all_alerts c8store 0 (fun i => i == 0) = .error .storeUnreachable ∧
    (check_incomplete_factories c8store).length = 1 :=
  ⟨rfl, rfl⟩

/-- C8 (amended): `get_all_alerts` has no per-check isolation: if any
one of its six checks raises an operational store failure, the whole
sweep fails and no AlertSummary is returned. -/
theorem failing_check_aborts_sweep (store : Store) (today : Int)
    (fault : Nat → Bool) (i : Nat) (hi : i ≤ 5) (hf : fault i = true) :
    isOk (get_all_alerts store today fault) = false := by
  rw [get_all_alerts_isOk_iff_no_fault]
  interval_cases i <;> simp [hf]

/-- Witness for the amended C8: a failure injected into check 0 makes
the sweep return no summary. -/
theorem failing_check_aborts_sweep_witness :
    (0 : Nat) ≤ 5 ∧ (fun i : Nat => i == 0) 0 = true ∧
      isOk (get_all_alerts {} 0 (fun i : Nat => i == 0)) = false :=
  ⟨by decide, rfl, failing_check_aborts_sweep {} 0 (fun i => i == 0) 0 (by decide) rfl⟩

/-- C5 (counterexample): under default strategy `db_wins`, a
conflicting record without a manual override ("B") keeps its stored
values, but it is *not* counted as skipped when an earlier conflict's
apply raises: the run aborts before reaching it, so `skipped = 0` while
the store is rolled back. -/
theorem db_wins_skip_not_counted_counterexample :
    resolve_employee_conflicts c5store c5analysis .db_wins
        [("A", .source_wins)] false = .ok (c5store, c5result) ∧
    c5result.skipped = 0 ∧
    (c5analysis.conflicts.map (fun c => c.entity_key)).contains "B" = true ∧
    manualHas [("A", ConflictStrategy.source_wins)] "B" = false :=
  ⟨rfl, rfl, rfl, rfl⟩

/-- C5 (amended): under default strategy `db_wins`, a record with no
per-record manual override is never written -- its stored rows are
unchanged by the call in every outcome -- and whenever the call
succeeds, the skipped count equals the number of conflicts resolved as
`db_wins`, so the record is counted as skipped. -/
theorem db_wins_frame_effect (store : Store) (analysis : SyncAnalysis)
    (manual : List (String × ConflictStrategy)) (cf : Bool) (k : String)
    (out : Store × SyncResult)
    (hk : manualHas manual k = false)
    (hout : resolve_employee_conflicts store analysis .db_wins manual cf = .ok out) :
    (out.1.employees.filter (fun e => e.employee_number == k) =
      store.employees.filter (fun e => e.employee_number == k)) ∧
    (out.2.success = true →
      out.2.skipped = analysis.conflicts.countP
        (fun c => decide (resolution_for manual .db_wins c.entity_key = .db_wins))) ∧
    (out.2.success = true → (∃ c ∈ analysis.conflicts, c.entity_key = k) →
      1 ≤ out.2.skipped) := by
  unfold resolve_employee_conflicts at hout
  cases hloop : resolveLoop manual .db_wins analysis.conflicts store.employees
      { snapshot_id := "sync_employees", created := analysis.to_create.length } with
  | error er =>
      rw [hloop] at hout
      obtain ⟨e2, r2⟩ := er
      obtain rfl := (Except.ok.inj hout).symm
      refine ⟨rfl, ?_, ?_⟩ <;> intro hsucc <;> exact absurd hsucc (by simp)
  | ok pr =>
      obtain ⟨pending, r⟩ := pr
      rw [hloop] at hout
      cases cf with
      | true =>
          simp only [if_pos rfl] at hout
          obtain rfl := (Except.ok.inj hout).symm
          refine ⟨rfl, ?_, ?_⟩ <;> intro hsucc <;> exact absurd hsucc (by simp)
      | false =>
          simp only [Bool.false_eq_true, if_false] at hout
          obtain rfl := (Except.ok.inj hout).symm
          refine ⟨?_, ?_, ?_⟩
          · exact resolveLoop_db_wins_filter manual k hk _ _ _ _ _ hloop
          · intro _
            have := resolveLoop_skipped_count manual .db_wins _ _ _ _ _ hloop
            simpa using this
          · intro _ hex
            have hcount := resolveLoop_skipped_count manual .db_wins _ _ _ _ _ hloop
            obtain ⟨c, hc, hck⟩ := hex
            have hpos : 0 < analysis.conflicts.countP
                (fun c => decide (resolution_for manual .db_wins c.entity_key =
                  .db_wins)) := by
              rw [List.countP_pos_iff]
              refine ⟨c, hc, ?_⟩
              rw [hck]
              simp only [resolution_for, manualHas_false_find?_none manual k hk]
              simp
            simp only [hcount]
            omega

/-- Witness for the amended C5 on a concrete run: the conflicting
record "B" keeps its stored row and is counted in `skipped`. -/
theorem db_wins_frame_effect_witness :
    ((c5wstore, c5wresult) : Store × SyncResult).1.employees.filter
        (fun e => e.employee_number == "B") =
      c5wstore.employees.filter (fun e => e.employee_number == "B") ∧
    c5wresult.skipped = c5wanalysis.conflicts.countP
      (fun c => decide (resolution_for [] .db_wins c.entity_key = .db_wins)) ∧
    1 ≤ c5wresult.skipped := by
  have h := db_wins_frame_effect c5wstore c5wanalysis [] false "B"
    (c5wstore, c5wresult) rfl rfl
  exact ⟨h.1, h.2.1 rfl, h.2.2 rfl ⟨c5wconflict, List.mem_singleton.mpr rfl, rfl⟩⟩

/-- C1 (counterexample): a commit failure during the apply phase of a
batch whose conflict was applied (`updated = 1`) makes
`resolve_employee_conflicts` return *normally* with the store rolled
back, `success = False` and the stringified exception in `errors` --
the failure does not propagate to the caller as a raised fault. -/
theorem resolver_write_failure_no_raise_counterexample :
    resolve_employee_conflicts c1store c1analysis .source_wins [] true =
      .ok (c1store, c1result) ∧
    c1result.success = false ∧ c1result.errors = ["CommitError"] ∧
    c1result.updated = 1 :=
  ⟨rfl, rfl, rfl, rfl⟩

/-- C1 (amended): if any store write fails during the apply phase --
an exception inside the conflicts loop or a commit failure -- then
every mutation of the batch is rolled back (the returned committed
store is exactly the input store); the failure is reported to the
caller in the returned SyncResult (`success = False`, non-empty
`errors`), and no exception propagates out of the call. -/
theorem resolver_write_failure_reports_not_raises (store : Store)
    (analysis : SyncAnalysis) (strategy : ConflictStrategy)
    (manual : List (String × ConflictStrategy)) (cf : Bool) (out : Store × SyncResult)
    (hfail : cf = true ∨ ∃ er, resolveLoop manual strategy analysis.conflicts
        store.employees
        { snapshot_id := "sync_employees", created := analysis.to_create.length } =
          .error er)
    (hout : resolve_employee_conflicts store analysis strategy manual cf = .ok out) :
    out.1 = store ∧ out.2.success = false ∧ out.2.errors ≠ [] ∧
      isOk (resolve_employee_conflicts store analysis strategy manual cf) = true := by
  unfold resolve_employee_conflicts at hout ⊢
  cases hloop : resolveLoop manual strategy analysis.conflicts store.employees
      { snapshot_id := "sync_employees", created := analysis.to_create.length } with
  | error er =>
      obtain ⟨e2, r2⟩ := er
      rw [hloop] at hout
      dsimp only at hout ⊢
      obtain rfl := (Except.ok.inj hout).symm
      exact ⟨rfl, rfl, by simp, rfl⟩
  | ok pr =>
      obtain ⟨pending, r⟩ := pr
      rw [hloop] at hout
      dsimp only at hout ⊢
      rcases hfail with rfl | ⟨er, her⟩
      · simp only [if_pos rfl] at hout ⊢
        obtain rfl := (Except.ok.inj hout).symm
        exact ⟨rfl, rfl, by simp, rfl⟩
      · rw [her] at hloop
        exact absurd hloop (by simp)

/-- Witness for the amended C1 on the concrete commit-failure run. -/
theorem resolver_write_failure_reports_not_raises_witness :
    ((c1store, c1result) : Store × SyncResult).1 = c1store ∧
    ((c1store, c1result) : Store × SyncResult).2.success = false ∧
    ((c1store, c1result) : Store × SyncResult).2.errors ≠ [] ∧
    isOk (resolve_employee_conflicts c1store c1analysis .source_wins [] true) = true :=
  resolver_write_failure_reports_not_raises c1store c1analysis .source_wins []
    true (c1store, c1result) (Or.inl rfl) rfl

/-- C3 (counterexample): a tracked field can differ between source and
store -- both as raw values and after normalization -- and yet produce
zero FieldConflicts, with the record classified unchanged: an empty
source string normalizes to `None` ("no opinion"), which suppresses the
conflict. -/
theorem differing_field_without_conflict_counterexample :
    (analyze_employee_sync c3store c3source "excel").conflicts = [] ∧
    (analyze_employee_sync c3store c3source "excel").unchanged = ["001"] ∧
    pyEq (dictGet c3rec "full_name_kanji") (c3emp.getField "full_name_kanji") = false ∧
    pyEq (normalize_value (dictGet c3rec "full_name_kanji"))
      (normalize_value (c3emp.getField "full_name_kanji")) = false ∧
    (compare_employee c3rec c3emp).countP
      (fun fc => fc.field_name == "full_name_kanji") = 0 :=
  ⟨rfl, rfl, rfl, rfl, rfl⟩

/-- C3 (amended): `analyze_employee_sync` is a read-only classification
of every source record carrying a non-empty natural key: an absent key
goes to `to_create`; a present key whose tracked fields show no
conflict goes to `unchanged`; each tracked field produces exactly one
FieldConflict precisely when its normalized source value is non-`None`
and differs from the normalized stored value (zero conflicts
otherwise, even for raw differences); conflicting records appear in
`conflicts` with their field conflicts; and every stored key absent
from the source batch is reported in `db_only`, no record being
deleted. -/
theorem analyze_employee_sync_classification (store : Store) (source : List PyDict) :
    (∀ r ∈ source, sourceKey r ≠ "" →
        lookupEmp (buildEmpMap store.employees) (sourceKey r) = none →
        sourceKey r ∈ (analyze_employee_sync store source "excel").to_create.map
          (·.employee_number)) ∧
    (∀ r ∈ source, ∀ e : Employee, sourceKey r ≠ "" →
        lookupEmp (buildEmpMap store.employees) (sourceKey r) = some e →
        compare_employee r e = [] →
        sourceKey r ∈ (analyze_employee_sync store source "excel").unchanged) ∧
    (∀ (r : PyDict) (e : Employee) (f jn : String) (sev : ConflictSeverity),
        (f, jn, sev) ∈ compare_fields →
        (compare_employee r e).countP (fun fc => fc.field_name == f) =
          if compareCond r e f then 1 else 0) ∧
    (∀ r ∈ source, ∀ e : Employee, sourceKey r ≠ "" →
        lookupEmp (buildEmpMap store.employees) (sourceKey r) = some e →
        compare_employee r e ≠ [] →
        ∃ sc ∈ (analyze_employee_sync store source "excel").conflicts,
          sc.entity_key = sourceKey r ∧ sc.conflicts = compare_employee r e) ∧
    (∀ p ∈ buildEmpMap store.employees, (∀ r ∈ source, sourceKey r ≠ p.1) →
        p.1 ∈ (analyze_employee_sync store source "excel").db_only.map
          (·.employee_number)) := by
  simp only [analyze_employee_sync]
  refine ⟨?_, ?_, ?_, ?_, ?_⟩
  · intro r hr hk hl
    exact analyzeLoop_mem_to_create _ source _ r hr hk hl
  · intro r hr e hk hl hc
    exact analyzeLoop_mem_unchanged _ source _ r e hr hk hl hc
  · intro r e f jn sev hmem
    exact compare_employee_one_conflict_per_field r e f jn sev hmem
  · intro r hr e hk hl hc
    exact analyzeLoop_mem_conflicts _ source _ r e hr hk hl hc
  · intro p hp hnone
    rw [analyzeLoop_db_only_eq]
    refine List.mem_map.mpr ⟨_, List.mem_append.mpr (Or.inr
      (List.mem_map.mpr ⟨p, List.mem_filter.mpr ⟨hp, ?_⟩, rfl⟩)), rfl⟩
    rw [Bool.not_eq_true']
    rw [List.contains_eq_any_beq, List.any_eq_false]
    intro x hx
    intro hbeq
    have hxp : x = p.1 := (show p.1 = x by simpa using hbeq).symm
    subst hxp
    rcases analyzeLoop_keys _ source _ _ hx with h | ⟨r, hr, hrk⟩
    · simp at h
    · exact hnone r hr hrk

/-- Witness for the amended C3 on a concrete batch: a new key is
created, an equal record is unchanged, a differing tracked field yields
its single conflict, and the store-only key is reported. -/
theorem analyze_employee_sync_classification_witness :
    "new" ∈ (analyze_employee_sync c3wstore c3wsource "excel").to_create.map
      (·.employee_number) ∧
    "002" ∈ (analyze_employee_sync c3wstore c3wsource "excel").unchanged ∧
    (compare_employee c3wrec1 c3wempA).countP
      (fun fc => fc.field_name == "full_name_kanji") =
      (if compareCond c3wrec1 c3wempA "full_name_kanji" then 1 else 0) ∧
    (∃ sc ∈ (analyze_employee_sync c3wstore c3wsource "excel").conflicts,
      sc.entity_key = "001" ∧ sc.conflicts = compare_employee c3wrec1 c3wempA) ∧
    "003" ∈ (analyze_employee_sync c3wstore c3wsource "excel").db_only.map
      (·.employee_number) := by
  have h := analyze_employee_sync_classification c3wstore c3wsource
  refine ⟨?_, ?_, ?_, ?_, ?_⟩
  · exact h.1 c3wrec3
      (List.mem_cons_of_mem _ (List.mem_cons_of_mem _ (List.mem_cons_self _ _)))
      (by decide) rfl
  · exact h.2.1 c3wrec2
      (List.mem_cons_of_mem _ (List.mem_cons_self _ _)) c3wempB (by decide) rfl rfl
  · exact h.2.2.1 c3wrec1 c3wempA "full_name_kanji" "氏名" .high (by decide)
  · exact h.2.2.2.1 c3wrec1 (List.mem_cons_self _ _) c3wempA (by decide) rfl
      (by intro hemp; exact absurd (congrArg List.length hemp) (by decide))
  · refine h.2.2.2.2 ("003", c3wempC) ?_ (by decide)
    rw [show buildEmpMap c3wstore.employees =
      [("001", c3wempA), ("002", c3wempB), ("003", c3wempC)] from rfl]
    exact List.mem_cons_of_mem _ (List.mem_cons_of_mem _ (List.mem_cons_self _ _))


/-! ## Contract validator: counter invariants and the score formula (C4),
and raise behavior on malformed input (C2) -/

set_option maxHeartbeats 1000000 in
/-- Every iteration of `_validate_required_fields`'s loop increments
`fields_checked` by exactly one and `fields_valid` by at most one. -/
theorem checkRequiredField_counters (data : PyDict) (r : ValidationResult)
    (entry : String × String × String × Option Nat) :
    (checkRequiredField data r entry).fields_checked = r.fields_checked + 1 ∧
    r.fields_valid ≤ (checkRequiredField data r entry).fields_valid ∧
    (checkRequiredField data r entry).fields_valid ≤ r.fields_valid + 1 := by
  refine ⟨?_, ?_, ?_⟩
  · simp only [checkRequiredField, addError, addWarning,
      apply_ite (fun x : ValidationResult => x.fields_checked), ite_self]
  · simp only [checkRequiredField, addError, addWarning,
      apply_ite (fun x : ValidationResult => x.fields_valid)]
    split_ifs <;> omega
  · simp only [checkRequiredField, addError, addWarning,
      apply_ite (fun x : ValidationResult => x.fields_valid)]
    split_ifs <;> omega

/-- The required-fields loop adds `fields.length` to `fields_checked`
and at most `fields.length` to `fields_valid`. -/
theorem validate_required_fields_counters (data : PyDict) :
    ∀ (fields : List (String × String × String × Option Nat)) (r : ValidationResult),
      (fields.foldl (checkRequiredField data) r).fields_checked =
        r.fields_checked + fields.length ∧
      (fields.foldl (checkRequiredField data) r).fields_valid ≤
        r.fields_valid + fields.length := by
  intro fields
  induction fields with
  | nil => intro r; simp
  | cons e t ih =>
      intro r
      rw [List.foldl_cons]
      obtain ⟨ih1, ih2⟩ := ih (checkRequiredField data r e)
      obtain ⟨s1, s2, s3⟩ := checkRequiredField_counters data r e
      refine ⟨?_, ?_⟩
      · rw [ih1, s1]; simp [List.length_cons]; omega
      · calc (List.foldl (checkRequiredField data) (checkRequiredField data r e) t).fields_valid
            ≤ (checkRequiredField data r e).fields_valid + t.length := ih2
          _ ≤ r.fields_valid + 1 + t.length := by omega
          _ = r.fields_valid + (e :: t).length := by simp [List.length_cons]; omega

/-- `_validate_dates` never touches the field counters. -/
theorem validate_dates_counters (data : PyDict) (r r' : ValidationResult)
    (h : validate_dates data r = .ok r') :
    r'.fields_checked = r.fields_checked ∧ r'.fields_valid = r.fields_valid := by
  unfold validate_dates at h
  dsimp only at h
  split at h
  · obtain rfl := (Except.ok.inj h).symm
    simp [addError]
  · split at h
    · obtain rfl := (Except.ok.inj h).symm
      simp [addError]
    · cases hs : convertDateVal (dictGet data "dispatch_start_date") with
      | error e => rw [hs] at h; simp [Bind.bind, Except.bind] at h
      | ok sv =>
          rw [hs] at h
          simp only [Bind.bind, Except.bind] at h
          cases he : convertDateVal (dictGet data "dispatch_end_date") with
          | error e => rw [he] at h; simp [Bind.bind, Except.bind] at h
          | ok ev =>
              rw [he] at h
              simp only [Bind.bind, Except.bind] at h
              cases hle : pyLe ev sv with
              | error e => rw [hle] at h; simp [Bind.bind, Except.bind] at h
              | ok le =>
                  rw [hle] at h
                  simp only [Bind.bind, Except.bind] at h
                  cases hd : dateSubDays ev sv with
                  | error e => rw [hd] at h; simp [Bind.bind, Except.bind] at h
                  | ok dur =>
                      rw [hd] at h
                      simp only [Bind.bind, Except.bind, pure, Except.pure] at h
                      split at h <;> [skip; split at h] <;>
                        · obtain rfl := (Except.ok.inj h).symm
                          split <;> simp [addError, addWarning]

/-- `_validate_factory_consistency` never touches the field counters. -/
theorem validate_factory_consistency_counters (store : Store) (fid : Int)
    (data : PyDict) (r r' : ValidationResult)
    (h : validate_factory_consistency store fid data r = .ok r') :
    r'.fields_checked = r.fields_checked ∧ r'.fields_valid = r.fields_valid := by
  unfold validate_factory_consistency at h
  split at h
  · obtain rfl := (Except.ok.inj h).symm
    simp [addError]
  · next factory hf =>
      dsimp only at h
      split at h
      · next cd hcd =>
          split at h
          · cases hc : convertDateVal (dictGet data "dispatch_end_date") with
            | error e => rw [hc] at h; simp [Bind.bind, Except.bind] at h
            | ok ev =>
                rw [hc] at h
                simp only [Bind.bind, Except.bind] at h
                cases hg : pyGt ev (Val.vDate cd) with
                | error e => rw [hg] at h; simp [Bind.bind, Except.bind] at h
                | ok gt =>
                    rw [hg] at h
                    simp only [Bind.bind, Except.bind, pure, Except.pure] at h
                    split at h <;>
                      · obtain rfl := (Except.ok.inj h).symm
                        split <;> simp [addError, addWarning]
          · obtain rfl := (Except.ok.inj h).symm
            split <;> simp [addError, addWarning]
      · obtain rfl := (Except.ok.inj h).symm
        split <;> simp [addError, addWarning]

/-- Inversion for a successful `Except` bind. -/
theorem exceptBind_ok_elim {α β : Type} {x : Except PyErr α}
    {f : α → Except PyErr β} {b : β}
    (h : x >>= f = .ok b) : ∃ a, x = .ok a ∧ f a = .ok b := by
  cases x with
  | error e => exact absurd h (by simp [Bind.bind, Except.bind])
  | ok a => exact ⟨a, rfl, h⟩

/-- A fold whose step preserves the field counters preserves them. -/
theorem foldl_counters_invariant (f : ValidationResult → Int → ValidationResult)
    (hf : ∀ (r : ValidationResult) (i : Int),
      (f r i).fields_checked = r.fields_checked ∧
      (f r i).fields_valid = r.fields_valid) :
    ∀ (l : List Int) (r : ValidationResult),
      (List.foldl f r l).fields_checked = r.fields_checked ∧
      (List.foldl f r l).fields_valid = r.fields_valid := by
  intro l
  induction l with
  | nil => exact fun r => ⟨rfl, rfl⟩
  | cons i t ih =>
      intro r
      rw [List.foldl_cons]
      exact ⟨(ih (f r i)).1.trans (hf r i).1, (ih (f r i)).2.trans (hf r i).2⟩

/-- `_validate_employee_availability` never touches the field counters. -/
theorem validate_employee_availability_counters (store : Store)
    (ids : List Int) (sv ev : Val) (r : ValidationResult) :
    (validate_employee_availability store ids sv ev r).fields_checked =
      r.fields_checked ∧
    (validate_employee_availability store ids sv ev r).fields_valid =
      r.fields_valid := by
  unfold validate_employee_availability
  split
  · exact ⟨rfl, rfl⟩
  · apply foldl_counters_invariant
    intro r i
    split
    · simp [addError]
    · split_ifs <;> simp [addError, addWarning]

/-- `_validate_overtime_limits` never touches the field counters. -/
theorem validate_overtime_limits_counters (data : PyDict) (r r' : ValidationResult)
    (h : validate_overtime_limits data r = .ok r') :
    r'.fields_checked = r.fields_checked ∧ r'.fields_valid = r.fields_valid := by
  have mstep : ∀ (r1 r2 : ValidationResult),
      (if isTruthy (dictGet data "overtime_max_hours_month") = true then do
          let q ← pyFloat (dictGet data "overtime_max_hours_month")
          if q > 45 then
            pure (addError r1 "overtime_max_hours_month" "EXCEEDS_MONTHLY_LIMIT" "時間外労働（月）")
          else pure r1
        else (pure r1 : Except PyErr ValidationResult)) = .ok r2 →
      r2.fields_checked = r1.fields_checked ∧ r2.fields_valid = r1.fields_valid := by
    intro r1 r2 hk
    split at hk
    · obtain ⟨q, hq, hk2⟩ := exceptBind_ok_elim hk
      split at hk2 <;>
        · simp only [pure, Except.pure] at hk2
          obtain rfl := (Except.ok.inj hk2).symm
          simp [addError]
    · simp only [pure, Except.pure] at hk
      obtain rfl := (Except.ok.inj hk).symm
      exact ⟨rfl, rfl⟩
  unfold validate_overtime_limits at h
  dsimp only at h
  split at h
  · obtain ⟨q, hq, hk⟩ := exceptBind_ok_elim h
    split at hk
    · rw [pure_bind] at hk
      obtain ⟨e1, e2⟩ := mstep _ _ hk
      simp only [addWarning] at e1 e2
      exact ⟨e1, e2⟩
    · rw [pure_bind] at hk
      exact mstep _ _ hk
  · rw [pure_bind] at h
    exact mstep _ _ h

/-- `_validate_rates` never touches the field counters. -/
theorem validate_rates_counters (data : PyDict) (r r' : ValidationResult)
    (h : validate_rates data r = .ok r') :
    r'.fields_checked = r.fields_checked ∧ r'.fields_valid = r.fields_valid := by
  have hstep : ∀ (r1 r2 : ValidationResult),
      (if isTruthy (dictGet data "hourly_rate") = true then do
          let hv ← pyFloat (dictGet data "hourly_rate")
          if hv < 900 then
            pure (addWarning r1 "hourly_rate" "LOW_HOURLY_RATE" "時給")
          else pure r1
        else (pure r1 : Except PyErr ValidationResult)) = .ok r2 →
      r2.fields_checked = r1.fields_checked ∧ r2.fields_valid = r1.fields_valid := by
    intro r1 r2 hk
    split at hk
    · obtain ⟨hv, hq, hk2⟩ := exceptBind_ok_elim hk
      split at hk2 <;>
        · simp only [pure, Except.pure] at hk2
          obtain rfl := (Except.ok.inj hk2).symm
          simp [addWarning]
    · simp only [pure, Except.pure] at hk
      obtain rfl := (Except.ok.inj hk).symm
      exact ⟨rfl, rfl⟩
  unfold validate_rates at h
  dsimp only at h
  split at h
  · obtain ⟨hv, hq, hk⟩ := exceptBind_ok_elim h
    obtain ⟨ov, hq2, hk2⟩ := exceptBind_ok_elim hk
    split at hk2
    · rw [pure_bind] at hk2
      obtain ⟨e1, e2⟩ := hstep _ _ hk2
      simp only [addWarning] at e1 e2
      exact ⟨e1, e2⟩
    · rw [pure_bind] at hk2
      exact hstep _ _ hk2
  · rw [pure_bind] at h
    exact hstep _ _ h

/-- The tail of `validate_contract_data` (availability, overtime,
rates, score, `is_valid`): fed a result with `fields_checked = 16` and
`fields_valid ≤ 16`, the returned result satisfies the clamped score
formula, score bounds and the `is_valid`/errors equivalence. -/
theorem validator_tail_spec (store : Store) (data : PyDict)
    (employee_ids : List Int) (r2 r : ValidationResult)
    (hcheck : r2.fields_checked = 16) (hvalid : r2.fields_valid ≤ 16)
    (h : (do
      let result ← validate_overtime_limits data
          (if !employee_ids.isEmpty then
            validate_employee_availability store employee_ids
              (dictGet data "dispatch_start_date")
              (dictGet data "dispatch_end_date") r2
          else r2)
      let result ← validate_rates data result
      let result := { result with compliance_score := calculate_compliance_score result }
      pure { result with is_valid := result.errors.isEmpty }
      : Except PyErr ValidationResult) = .ok r) :
    r.compliance_score =
      ⌊min (100 : ℚ) (max 0 (100 * (r.fields_valid : ℚ) / (r.fields_checked : ℚ)
        - 10 * (r.errors.length : ℚ) - 2 * (r.warnings.length : ℚ)))⌋ ∧
    0 ≤ r.compliance_score ∧ r.compliance_score ≤ 100 ∧
    (r.is_valid = true ↔ r.errors = []) := by
  obtain ⟨r4, hov, h⟩ := exceptBind_ok_elim h
  dsimp only at h
  obtain ⟨r5, hra, h⟩ := exceptBind_ok_elim h
  simp only [pure, Except.pure] at h
  obtain rfl := (Except.ok.inj h).symm
  have h4c : r4.fields_checked = r2.fields_checked ∧ r4.fields_valid = r2.fields_valid := by
    split at hov
    · obtain ⟨a1, a2⟩ := validate_overtime_limits_counters data _ _ hov
      obtain ⟨b1, b2⟩ := validate_employee_availability_counters store employee_ids
        (dictGet data "dispatch_start_date") (dictGet data "dispatch_end_date") r2
      exact ⟨a1.trans b1, a2.trans b2⟩
    · exact validate_overtime_limits_counters data _ _ hov
  obtain ⟨h5c1, h5c2⟩ := validate_rates_counters data _ _ hra
  have hc16 : r5.fields_checked = 16 := by omega
  have hv16 : r5.fields_valid ≤ 16 := by omega
  have hvq : ((r5.fields_valid : ℚ)) ≤ 16 := by exact_mod_cast hv16
  have h1 : ((r5.fields_valid : ℚ) / 16) ≤ 1 := (div_le_one (by norm_num)).mpr hvq
  have he0 : (0 : ℚ) ≤ (r5.errors.length : ℚ) := Nat.cast_nonneg _
  have hw0 : (0 : ℚ) ≤ (r5.warnings.length : ℚ) := Nat.cast_nonneg _
  have hE : 100 * (r5.fields_valid : ℚ) / 16 - 10 * (r5.errors.length : ℚ)
      - 2 * (r5.warnings.length : ℚ) ≤ 100 := by linarith
  dsimp only
  refine ⟨?_, ?_, ?_, ?_⟩
  · unfold calculate_compliance_score
    rw [hc16]
    norm_num
    have harg : ((r5.fields_valid : ℚ) / 16) * 100 - (r5.errors.length : ℚ) * 10
        - (r5.warnings.length : ℚ) * 2
        = 100 * (r5.fields_valid : ℚ) / 16 - 10 * (r5.errors.length : ℚ)
          - 2 * (r5.warnings.length : ℚ) := by ring
    rw [harg, min_eq_right (max_le (by norm_num) hE)]
  · unfold calculate_compliance_score
    rw [hc16]
    norm_num
    exact Int.floor_nonneg.mpr (le_max_left 0 _)
  · unfold calculate_compliance_score
    rw [hc16]
    norm_num
    calc ⌊max 0 (((r5.fields_valid : ℚ) / 16) * 100 - (r5.errors.length : ℚ) * 10
          - (r5.warnings.length : ℚ) * 2)⌋
        ≤ ⌊(100 : ℚ)⌋ := Int.floor_le_floor (max_le (by norm_num) (by linarith))
      _ = 100 := by norm_num
  · exact List.isEmpty_iff

/-- C4: whenever `validate_contract_data` returns a `ValidationResult`,
its `compliance_score` equals
`int(clamp(100*fields_valid/fields_checked - 10*|errors| - 2*|warnings|, 0, 100))`
(the produced `fields_checked` is always the constant 16, so the
division is well defined and the base score is at most 100, making the
code's `int(max(0, ...))` agree with the clamped form); hence the score
is always in [0, 100]; and `is_valid` is true exactly when the error
list is empty. -/
theorem validator_score_clamped (store : Store) (data : PyDict)
    (factory_id : Option Int) (employee_ids : List Int) (is_update : Bool)
    (r : ValidationResult)
    (h : validate_contract_data store data factory_id employee_ids is_update = .ok r) :
    r.compliance_score =
      ⌊min (100 : ℚ) (max 0 (100 * (r.fields_valid : ℚ) / (r.fields_checked : ℚ)
        - 10 * (r.errors.length : ℚ) - 2 * (r.warnings.length : ℚ)))⌋ ∧
    0 ≤ r.compliance_score ∧ r.compliance_score ≤ 100 ∧
    (r.is_valid = true ↔ r.errors = []) := by
  unfold validate_contract_data at h
  dsimp only at h
  obtain ⟨r1, hd, h⟩ := exceptBind_ok_elim h
  have hb1 : (validate_required_fields data ({} : ValidationResult)).fields_checked = 16 :=
    (validate_required_fields_counters data REQUIRED_FIELDS {}).1
  have hb2 : (validate_required_fields data ({} : ValidationResult)).fields_valid ≤ 16 :=
    (validate_required_fields_counters data REQUIRED_FIELDS {}).2
  obtain ⟨hd1, hd2⟩ := validate_dates_counters data _ _ hd
  cases factory_id with
  | none =>
      simp only [pure_bind] at h
      exact validator_tail_spec store data employee_ids r1 r (by omega) (by omega) h
  | some fid =>
      dsimp only at h
      split at h
      · obtain ⟨r2, hf, h⟩ := exceptBind_ok_elim h
        obtain ⟨f1, f2⟩ := validate_factory_consistency_counters store fid data r1 r2 hf
        exact validator_tail_spec store data employee_ids r2 r (by omega) (by omega) h
      · simp only [pure_bind] at h
        exact validator_tail_spec store data employee_ids r1 r (by omega) (by omega) h

/-- Input dict for the C4 witness: all 16 required fields present and
valid, dispatch dates a five-month range. -/
def c4data : PyDict :=
  [("work_content", .vStr "assembly line work"),
   ("responsibility_level", .vStr "general"),
   ("worksite_name", .vStr "Plant A"),
   ("worksite_address", .vStr "1-2-3 Example, Nagoya"),
   ("supervisor_name", .vStr "Tanaka"),
   ("work_days", .vList [.vStr "Mon", .vStr "Tue"]),
   ("work_start_time", .vTime 480),
   ("work_end_time", .vTime 1020),
   ("break_time_minutes", .vInt 60),
   ("safety_measures", .vStr "helmet"),
   ("haken_moto_complaint_contact", .vDict [("name", .vStr "Sato")]),
   ("haken_saki_complaint_contact", .vDict [("name", .vStr "Suzuki")]),
   ("termination_measures", .vStr "per contract"),
   ("haken_moto_manager", .vDict [("name", .vStr "Ito")]),
   ("haken_saki_manager", .vDict [("name", .vStr "Kato")]),
   ("hourly_rate", .vInt 2000),
   ("dispatch_start_date", .vStr "2024-01-01"),
   ("dispatch_end_date", .vStr "2024-06-01")]

/-- The result `validate_contract_data` produces on `c4data`. -/
def c4result : ValidationResult :=
  { is_valid := true, errors := [], warnings := [], fields_checked := 16,
    fields_valid := 16, compliance_score := 100 }

/-- Witness for C4 at a fully valid 16-field input: the run returns a
result and that result satisfies the clamped score formula (score 100),
the bounds, and the `is_valid` equivalence. -/
theorem validator_score_clamped_witness :
    validate_contract_data {} c4data none [] false = .ok c4result ∧
    (c4result.compliance_score =
      ⌊min (100 : ℚ) (max 0 (100 * (c4result.fields_valid : ℚ) / (c4result.fields_checked : ℚ)
        - 10 * (c4result.errors.length : ℚ) - 2 * (c4result.warnings.length : ℚ)))⌋ ∧
    0 ≤ c4result.compliance_score ∧ c4result.compliance_score ≤ 100 ∧
    (c4result.is_valid = true ↔ c4result.errors = [])) := by
  have heval : validate_contract_data {} c4data none [] false = .ok c4result := by
    have hscore : calculate_compliance_score
        { is_valid := true, errors := [], warnings := [], fields_checked := 16,
          fields_valid := 16, compliance_score := 100 } = 100 := by
      unfold calculate_compliance_score
      norm_num
    have hpipe : validate_contract_data {} c4data none [] false =
        .ok { is_valid := ([] : List ValidationError).isEmpty, errors := [], warnings := [],
              fields_checked := 16, fields_valid := 16,
              compliance_score := calculate_compliance_score
                { is_valid := true, errors := [], warnings := [], fields_checked := 16,
                  fields_valid := 16, compliance_score := 100 } } := rfl
    rw [hpipe, hscore]
    rfl
  exact ⟨heval, validator_score_clamped {} c4data none [] false c4result heval⟩

/-- A dispatch-date input value on which the validator's date handling
cannot raise: falsy (absent/blank/zero) values are skipped, strings
must parse as `%Y-%m-%d`, `date` objects pass through. This predicate
follows the amended claim's wording, not the code. -/
def dateFieldOk (v : Val) : Bool :=
  isFalsy v ||
    (match v with
     | .vStr s => (parseDate s).isSome
     | .vDate _ => true
     | _ => false)

/-- A numeric input value on which `float(...)` cannot raise: falsy
values are skipped, otherwise `float` must accept the value. This
predicate follows the amended claim's wording, not the code. -/
def numFieldOk (v : Val) : Bool :=
  isFalsy v || isOk (pyFloat v)

/-- The amended claim's notion of a well-typed input dict: the two
dispatch dates and the four numeric rate/overtime fields are each
absent, falsy, or of a shape their conversion accepts. All other
fields may hold arbitrary values. -/
def well_typed_input (data : PyDict) : Bool :=
  dateFieldOk (dictGet data "dispatch_start_date") &&
  dateFieldOk (dictGet data "dispatch_end_date") &&
  numFieldOk (dictGet data "overtime_max_hours_day") &&
  numFieldOk (dictGet data "overtime_max_hours_month") &&
  numFieldOk (dictGet data "hourly_rate") &&
  numFieldOk (dictGet data "overtime_rate")

/-- A bind of a successful computation with a never-failing
continuation never fails. -/
theorem exceptBind_isOk {α β : Type} {x : Except PyErr α} {f : α → Except PyErr β}
    (hx : isOk x = true) (hf : ∀ a, isOk (f a) = true) : isOk (x >>= f) = true := by
  cases x with
  | error e => simp [isOk] at hx
  | ok a => exact hf a

/-- A truthy value passing `dateFieldOk` converts to a `date`. -/
theorem convertDateVal_vDate (v : Val) (h : dateFieldOk v = true)
    (hf : isFalsy v = false) : ∃ d, convertDateVal v = .ok (.vDate d) := by
  cases v with
  | vStr s =>
      simp only [dateFieldOk, Bool.or_eq_true] at h
      rcases h with h | h
      · rw [hf] at h; exact absurd h (by simp)
      · cases hp : parseDate s with
        | none => rw [hp] at h; exact absurd h (by simp)
        | some d => exact ⟨d, by simp [convertDateVal, hp]⟩
  | vDate d => exact ⟨d, rfl⟩
  | vNone => simp [isFalsy] at hf
  | vInt n => simp [dateFieldOk, hf] at h
  | vFloat q => simp [dateFieldOk, hf] at h
  | vDec q => simp [dateFieldOk, hf] at h
  | vBool b => simp [dateFieldOk, hf] at h
  | vTime m => simp [dateFieldOk, hf] at h
  | vList xs => simp [dateFieldOk, hf] at h
  | vDict xs => simp [dateFieldOk, hf] at h

/-- A truthy value passing `numFieldOk` passes `float(...)`. -/
theorem numFieldOk_pyFloat (v : Val) (h : numFieldOk v = true)
    (ht : isTruthy v = true) : ∃ q, pyFloat v = .ok q := by
  have hf : isFalsy v = false := by simpa [isTruthy] using ht
  simp only [numFieldOk, hf, Bool.false_or] at h
  cases hp : pyFloat v with
  | error e => rw [hp] at h; simp [isOk] at h
  | ok q => exact ⟨q, rfl⟩

/-- `_validate_dates` cannot raise when both dispatch dates pass
`dateFieldOk`. -/
theorem validate_dates_isOk (data : PyDict)
    (h1 : dateFieldOk (dictGet data "dispatch_start_date") = true)
    (h2 : dateFieldOk (dictGet data "dispatch_end_date") = true)
    (r : ValidationResult) : isOk (validate_dates data r) = true := by
  unfold validate_dates
  dsimp only
  split
  · rfl
  · split
    · rfl
    · next hs he =>
        have hs' : isFalsy (dictGet data "dispatch_start_date") = false := by
          simpa using hs
        have he' : isFalsy (dictGet data "dispatch_end_date") = false := by
          simpa using he
        obtain ⟨ds, hds⟩ := convertDateVal_vDate _ h1 hs'
        obtain ⟨de, hde⟩ := convertDateVal_vDate _ h2 he'
        rw [hds]
        simp only [Bind.bind, Except.bind]
        rw [hde]
        simp only [Bind.bind, Except.bind, pyLe, dateSubDays]
        split_ifs <;> rfl

/-- `_validate_factory_consistency` cannot raise when the dispatch end
date passes `dateFieldOk`. -/
theorem validate_factory_isOk (store : Store) (fid : Int) (data : PyDict)
    (h2 : dateFieldOk (dictGet data "dispatch_end_date") = true)
    (r : ValidationResult) :
    isOk (validate_factory_consistency store fid data r) = true := by
  unfold validate_factory_consistency
  split
  · rfl
  · dsimp only
    split
    · split
      · next ht =>
          have hf : isFalsy (dictGet data "dispatch_end_date") = false := by
            simpa [isTruthy] using ht
          obtain ⟨de, hde⟩ := convertDateVal_vDate _ h2 hf
          rw [hde]
          simp only [Bind.bind, Except.bind, pyGt]
          split_ifs <;> rfl
      · rfl
    · rfl

/-- `_validate_overtime_limits` cannot raise when both overtime fields
pass `numFieldOk`. -/
theorem validate_overtime_isOk (data : PyDict)
    (hd : numFieldOk (dictGet data "overtime_max_hours_day") = true)
    (hm : numFieldOk (dictGet data "overtime_max_hours_month") = true)
    (r : ValidationResult) : isOk (validate_overtime_limits data r) = true := by
  have mstep : ∀ (r1 : ValidationResult),
      isOk (if isTruthy (dictGet data "overtime_max_hours_month") = true then do
          let q ← pyFloat (dictGet data "overtime_max_hours_month")
          if q > 45 then
            pure (addError r1 "overtime_max_hours_month" "EXCEEDS_MONTHLY_LIMIT" "時間外労働（月）")
          else pure r1
        else (pure r1 : Except PyErr ValidationResult)) = true := by
    intro r1
    split
    · next ht =>
        obtain ⟨q, hq⟩ := numFieldOk_pyFloat _ hm ht
        rw [hq]
        simp only [Bind.bind, Except.bind]
        split_ifs <;> rfl
    · rfl
  unfold validate_overtime_limits
  dsimp only
  split
  · next ht =>
      obtain ⟨q, hq⟩ := numFieldOk_pyFloat _ hd ht
      rw [hq]
      simp only [Bind.bind, Except.bind]
      split
      · simp only [pure, Except.pure]
        exact mstep _
      · simp only [pure, Except.pure]
        exact mstep _
  · rw [pure_bind]
    exact mstep _

/-- `_validate_rates` cannot raise when the two rate fields pass
`numFieldOk`. -/
theorem validate_rates_isOk (data : PyDict)
    (hh : numFieldOk (dictGet data "hourly_rate") = true)
    (ho : numFieldOk (dictGet data "overtime_rate") = true)
    (r : ValidationResult) : isOk (validate_rates data r) = true := by
  have hstep : ∀ (r1 : ValidationResult),
      isOk (if isTruthy (dictGet data "hourly_rate") = true then do
          let hv ← pyFloat (dictGet data "hourly_rate")
          if hv < 900 then
            pure (addWarning r1 "hourly_rate" "LOW_HOURLY_RATE" "時給")
          else pure r1
        else (pure r1 : Except PyErr ValidationResult)) = true := by
    intro r1
    split
    · next ht =>
        obtain ⟨hv, hq⟩ := numFieldOk_pyFloat _ hh ht
        rw [hq]
        simp only [Bind.bind, Except.bind]
        split_ifs <;> rfl
    · rfl
  unfold validate_rates
  dsimp only
  split
  · next ht =>
      have ht1 : isTruthy (dictGet data "hourly_rate") = true := by
        simp only [Bool.and_eq_true] at ht
        exact ht.1
      have ht2 : isTruthy (dictGet data "overtime_rate") = true := by
        simp only [Bool.and_eq_true] at ht
        exact ht.2
      obtain ⟨hv, hq1⟩ := numFieldOk_pyFloat _ hh ht1
      obtain ⟨ov, hq2⟩ := numFieldOk_pyFloat _ ho ht2
      rw [hq1]
      simp only [Bind.bind, Except.bind]
      rw [hq2]
      simp only [Bind.bind, Except.bind]
      split
      · simp only [pure, Except.pure]
        split_ifs <;> rfl
      · simp only [pure, Except.pure]
        split_ifs <;> rfl
  · rw [pure_bind]
    exact hstep _

/-- C2 (amended): `validate_contract_data` returns a `ValidationResult`
and never raises on any input whose date and numeric fields are
well-typed (`well_typed_input`); all problems with such inputs appear
only as structured error/warning entries. On ill-typed inputs the
claim is false: see the counterexample below. -/
theorem validator_well_typed_no_raise (store : Store) (data : PyDict)
    (factory_id : Option Int) (employee_ids : List Int) (is_update : Bool)
    (h : well_typed_input data = true) :
    isOk (validate_contract_data store data factory_id employee_ids is_update)
      = true := by
  simp only [well_typed_input, Bool.and_eq_true] at h
  obtain ⟨⟨⟨⟨⟨hds, hde⟩, hod⟩, hom⟩, hhr⟩, hor⟩ := h
  unfold validate_contract_data
  dsimp only
  apply exceptBind_isOk (validate_dates_isOk data hds hde _)
  intro r1
  cases factory_id with
  | none =>
      dsimp only
      rw [pure_bind]
      apply exceptBind_isOk (validate_overtime_isOk data hod hom _)
      intro r4
      apply exceptBind_isOk (validate_rates_isOk data hhr hor _)
      intro r5
      rfl
  | some fid =>
      dsimp only
      split
      · apply exceptBind_isOk (validate_factory_isOk store fid data hde _)
        intro r2
        apply exceptBind_isOk (validate_overtime_isOk data hod hom _)
        intro r4
        apply exceptBind_isOk (validate_rates_isOk data hhr hor _)
        intro r5
        rfl
      · rw [pure_bind]
        apply exceptBind_isOk (validate_overtime_isOk data hod hom _)
        intro r4
        apply exceptBind_isOk (validate_rates_isOk data hhr hor _)
        intro r5
        rfl

/-- Witness for C2 at the empty input dict (every field absent, hence
falsy and well-typed): the validator returns a result. -/
theorem validator_well_typed_no_raise_witness :
    well_typed_input [] = true ∧
    isOk (validate_contract_data {} [] none [] false) = true :=
  ⟨rfl, validator_well_typed_no_raise {} [] none [] false rfl⟩

/-- Counterexample to C2 as stated: on an input whose
`dispatch_start_date` is the unparseable string "garbage" (with a
well-formed end date), `validate_contract_data` raises
`ValueError` out of `datetime.strptime` instead of returning a
`ValidationResult` with a structured error entry. -/
theorem validator_raises_on_malformed_date_counterexample :
    validate_contract_data {} [("dispatch_start_date", .vStr "garbage"),
      ("dispatch_end_date", .vStr "2024-01-01")] none [] false =
    .error (.valueError "time data garbage does not match format %Y-%m-%d") := rfl

end Kobetsu
